import Mathlib

/-!
Verification development for a portfolio CRUD backend (Express + Mongoose).

The route handlers, validator chains and middleware pipelines below are
shallow embeddings of the JavaScript source files
(`src/routes/*.js`, `src/models/*.js`, `src/middleware/upload.js`,
`src/config/cloudinary.js`).  JavaScript values occurring in request
bodies are modelled by the inductive type `JVal`; external library calls
(`JSON.parse`) are modelled as a parameter `jp : String → Option JVal`
threaded through the functions that call them.
-/

/-- JS `String.prototype.trim`, evaluated over the character list so that
concrete runs reduce inside the kernel. -/
def String.jsTrim (s : String) : String :=
  String.mk (((s.toList.dropWhile Char.isWhitespace).reverse.dropWhile
    Char.isWhitespace).reverse)

namespace Profile

/-! ### Basic string helpers (JS semantics) -/

/-- `split` on a single separator character, over character lists (the
accumulator holds the current chunk reversed). -/
def splitListAux (sep : Char) : List Char → List Char → List (List Char)
  | [], acc => [acc.reverse]
  | c :: cs, acc =>
    if c = sep then acc.reverse :: splitListAux sep cs []
    else splitListAux sep cs (c :: acc)

/-- JS `str.split(sep)` for a one-character separator. -/
def jsSplit (sep : Char) (s : String) : List String :=
  (splitListAux sep s.toList []).map String.mk

/-- Lexicographic strict order on strings, over the character lists. -/
def charListLt : List Char → List Char → Bool
  | [], [] => false
  | [], _ :: _ => true
  | _ :: _, [] => false
  | a :: as, b :: bs => if a < b then true else if b < a then false else charListLt as bs

def strLtB (a b : String) : Bool := charListLt a.toList b.toList

def strLeB (a b : String) : Bool := a == b || charListLt a.toList b.toList

/-- JS `parseInt` on a string: trim, optional sign, longest digit prefix;
`none` models `NaN`. -/
def parseIntJS (s : String) : Option Int :=
  let t := s.toList.dropWhile Char.isWhitespace
  let (neg, ds) :=
    match t with
    | '-' :: rest => (true, rest)
    | '+' :: rest => (false, rest)
    | l => (false, l)
  let digits := ds.takeWhile Char.isDigit
  if digits.isEmpty then none
  else
    let n : Nat := digits.foldl (fun a c => a * 10 + (c.toNat - 48)) 0
    some (if neg then -(n : Int) else (n : Int))

/-- validator.js `isInt`: the whole (trimmed by the caller when a `.trim()`
sanitizer precedes) string is an optionally signed run of digits. -/
def isIntStr (s : String) : Option Int :=
  let t := s.toList
  let (neg, ds) :=
    match t with
    | '-' :: rest => (true, rest)
    | '+' :: rest => (false, rest)
    | l => (false, l)
  if ds ≠ [] ∧ ds.all Char.isDigit then
    let n : Nat := ds.foldl (fun a c => a * 10 + (c.toNat - 48)) 0
    some (if neg then -(n : Int) else (n : Int))
  else none

/-- JS `str.replace(/\s+/g, '-')` over a character list: the flag says
whether the previous character was part of a whitespace run. -/
def collapseWsAux : Bool → List Char → List Char
  | _, [] => []
  | inWs, c :: cs =>
    if c.isWhitespace then
      if inWs then collapseWsAux true cs
      else '-' :: collapseWsAux true cs
    else c :: collapseWsAux false cs

/-- Every maximal whitespace run becomes a single hyphen. -/
def collapseWs (l : List Char) : List Char := collapseWsAux false l

/-- `item.toLowerCase().replace(/\s+/g, '-')` used to build keys. -/
def toKey (s : String) : String :=
  String.mk (collapseWs (s.toList.map Char.toLower))

/-- `key.charAt(0).toUpperCase() + key.slice(1)`. -/
def capitalize (s : String) : String :=
  match s.toList with
  | [] => ""
  | c :: cs => String.mk (c.toUpper :: cs)

/-! ### JavaScript values -/

/-- A JavaScript value as it may occur in a parsed request body. -/
inductive JVal where
  | undef
  | null
  | bool (b : Bool)
  | num (n : Int)
  | str (s : String)
  | arr (xs : List JVal)
  | obj (kvs : List (String × JVal))
deriving Repr, BEq, Inhabited

namespace JVal

/-- JS falsiness (`!v`): `undefined`, `null`, `false`, `0` and `""`. -/
def falsy : JVal → Bool
  | undef => true
  | null => true
  | bool b => !b
  | num n => n == 0
  | str s => s == ""
  | _ => false

/-- JS `String(v)` (arrays and objects coerced crudely; the routes only
coerce primitive values). -/
def toStr : JVal → String
  | undef => "undefined"
  | null => "null"
  | bool b => if b then "true" else "false"
  | num n => toString n
  | str s => s
  | arr _ => ""
  | obj _ => "[object Object]"

def isArr : JVal → Bool
  | arr _ => true
  | _ => false

end JVal

/-- A request body: JS object as an association list. -/
def Body := List (String × JVal)

/-- `req.body.k`: `undefined` when the key is absent. -/
def bget (b : Body) (k : String) : JVal :=
  match b.find? (fun kv => kv.1 == k) with
  | some kv => kv.2
  | none => JVal.undef

/-! ### HTTP requests, responses, middleware pipelines -/

/-- A Cloudinary upload result (`src/config/cloudinary.js`,
`uploadToCloudinary` returns `{url, public_id}`). -/
structure UploadResult where
  url : String
  public_id : String
deriving Repr, BEq, DecidableEq

/-- An incoming HTTP request, after body/multipart parsing.
`validToken` abstracts whether the `Authorization` header carries a token
the auth middleware accepts. -/
structure Request where
  validToken : Bool
  body : List (String × JVal)
  file : Option String := none
  files : List String := []
  params : List (String × String) := []
  query : List (String × String) := []
  userId : Nat := 0
deriving Repr

/-- `req.params.k`. -/
def pget (r : Request) (k : String) : String :=
  match r.params.find? (fun kv => kv.1 == k) with
  | some kv => kv.2
  | none => ""

/-- The JSON responses the handlers produce (status, `success` flag,
validation `errors` array, `message`). -/
structure Response where
  status : Nat
  success : Bool
  errors : List String := []
  message : String := ""
deriving Repr, BEq, DecidableEq

/-- Request-scoped context written by middlewares:
`req.cloudinaryResult` / `req.iconResult` / `req.cloudinaryResults`, the
record of uploads actually sent to the media host, and the validation
errors accumulated by the express-validator chain. -/
structure UpCtx where
  cloudinaryResult : Option UploadResult := none
  iconResult : Option UploadResult := none
  cloudinaryResults : List UploadResult := []
  uploads : List String := []
  errors : List String := []
deriving Repr

/-- Result of one middleware step: continue down the chain, or answer the
request (short-circuit). -/
inductive Outcome (σ : Type) where
  | next (s : σ)
  | halt (s : σ) (r : Response)

/-- A middleware / handler over server state `σ`. -/
def Mw (σ : Type) := Request → σ → Outcome σ

/-- Express runs the route's middlewares in order until one of them
responds. -/
def runPipeline {σ : Type} : List (Mw σ) → Request → σ → σ × Option Response
  | [], _, s => (s, none)
  | m :: rest, req, s =>
    match m req s with
    | .next s' => runPipeline rest req s'
    | .halt s' r => (s', some r)

/-- The 401 answer of the auth middleware. -/
def unauthorizedResp : Response := { status := 401, success := false }

/-- Modelled from the spec: `src/middleware/auth.js` (the `protect`
middleware) is imported by every router but is not part of the snapshot.
The spec says the system has "simple token-based authentication gating
write operations", so `protect` halts with 401 unless the request carries
a valid token, and otherwise passes the request on unchanged. -/
def protectMw {σ : Type} : Mw σ := fun req s =>
  if req.validToken then .next s else .halt s unauthorizedResp

/-- An express-validator chain `[body(...)...]`: it records the
validation errors on the request context and always continues. -/
def validateMw {γ : Type} (v : Request → List String) : Mw (UpCtx × γ) :=
  fun req (c, g) => .next ({ c with errors := c.errors ++ v req }, g)

/-- multer's `upload.single(...)` parsers: in this model the parsed file
is already on the request, so they pass through. -/
def uploadImageMw {σ : Type} : Mw σ := fun _ s => .next s

def uploadLogoMw {σ : Type} : Mw σ := fun _ s => .next s

def uploadIconMw {σ : Type} : Mw σ := fun _ s => .next s

def uploadImagesMw {σ : Type} : Mw σ := fun _ s => .next s

/-- `uploadToCloudinary` (`src/config/cloudinary.js`): uploads under a
folder and returns `{url, public_id}`; the public id is derived from the
file and folder. -/
def uploadToCloudinary (file folder : String) : UploadResult :=
  { url := "https://res.cloudinary.com/" ++ folder ++ "/" ++ file
    public_id := folder ++ "/" ++ file }

/-- `processImageUpload` (`src/middleware/upload.js` 48–68): skip when no
file; otherwise upload to Cloudinary folder `portfolio` and put the
result on `req.cloudinaryResult`. -/
def processImageUploadMw {γ : Type} : Mw (UpCtx × γ) := fun req (c, g) =>
  match req.file with
  | none => .next (c, g)
  | some f =>
    let r := uploadToCloudinary f "portfolio"
    .next ({ c with cloudinaryResult := some r, uploads := c.uploads ++ [r.public_id] }, g)

/-- `processIconUpload` (`src/middleware/upload.js` 71–91): like
`processImageUpload` but folder `portfolio/icons` and `req.iconResult`. -/
def processIconUploadMw {γ : Type} : Mw (UpCtx × γ) := fun req (c, g) =>
  match req.file with
  | none => .next (c, g)
  | some f =>
    let r := uploadToCloudinary f "portfolio/icons"
    .next ({ c with iconResult := some r, uploads := c.uploads ++ [r.public_id] }, g)

/-- `processImagesUpload` (`src/middleware/upload.js` 94–113). -/
def processImagesUploadMw {γ : Type} : Mw (UpCtx × γ) := fun req (c, g) =>
  if req.files.isEmpty then .next (c, g)
  else
    let rs := req.files.map (fun f => uploadToCloudinary f "portfolio")
    .next ({ c with cloudinaryResults := rs
                    uploads := c.uploads ++ rs.map (·.public_id) }, g)

/-! ### Input normalization (`src/routes/projects.js`) -/

/-- `data.split(',').map(item => item.trim()).filter(Boolean)`. -/
def splitTrimFilter (s : String) : List String :=
  ((jsSplit ',' s).map String.jsTrim).filter (fun x => x ≠ "")

/-- The object built for each comma-separated item in `simplifyData`
(`src/routes/projects.js` 22–28). -/
def mkSimpleItem (item : String) : JVal :=
  .obj [("key", .str (toKey item)),
        ("name", .str item),
        ("icon", .str "check"),
        ("category", .str "other"),
        ("isActive", .bool true)]

/-- `simplifyData` (`src/routes/projects.js` 9–33).  `jp` models
`JSON.parse` (`none` = the parse throws). -/
def simplifyData (jp : String → Option JVal) (data : JVal) : JVal :=
  if data.falsy then .arr []
  else match data with
    | .arr xs => .arr xs
    | .str s =>
      match jp s with
      | some v => v
      | none => .arr ((splitTrimFilter s).map mkSimpleItem)
    | _ => .arr []

/-- The link object built from one legacy `[key, url]` entry
(`src/routes/projects.js` 295–302, identical at 547–554). -/
def mkLegacyLink (k : String) (v : JVal) : JVal :=
  .obj [("key", .str k),
        ("url", v),
        ("title", .str (capitalize k)),
        ("description", .str ("Link to " ++ k)),
        ("icon", .str (if k = "github" then "github" else "external-link")),
        ("isActive", .bool true)]

/-- `Object.entries(links).map(...)` on a legacy object-shaped `links`. -/
def convertLegacyLinks (kvs : List (String × JVal)) : JVal :=
  .arr (kvs.map (fun kv => mkLegacyLink kv.1 kv.2))

/-- The `links` processing in `router.post('/')`
(`src/routes/projects.js` 289–310): arrays pass through, legacy objects
are converted entry-wise, strings are `JSON.parse`d (on failure the
handler keeps the initial `[]`), and falsy values give `[]`. -/
def parseLinksField (jp : String → Option JVal) (links : JVal) : JVal :=
  if links.falsy then .arr []
  else match links with
    | .arr xs => .arr xs
    | .obj kvs => convertLegacyLinks kvs
    | .str s =>
      match jp s with
      | some v => v
      | none => .arr []
    | v => v

/-- The character class of the `remove` option passed to `slugify`
(`src/models/Project.js` 259–263). -/
def slugRemoveChars : List Char :=
  ['*', '+', '~', '.', '(', ')', '\x27', '"', '!', ':', '@']

/-- The `slugify` library call with `lower: true, strict: true,
remove: /[*+~.()'"!:@]/g`: removed characters are dropped, the rest is
lowercased, whitespace runs become hyphens, and `strict` keeps only
alphanumerics and hyphens. -/
def slugify (s : String) : String :=
  let kept := s.toList.filter (fun c => ¬ c ∈ slugRemoveChars)
  let lowered := kept.map Char.toLower
  let hyphenated := collapseWs lowered
  String.mk (hyphenated.filter (fun c => c.isAlphanum ∨ c = '-'))

/-! ### The stored documents and schema constraints -/

/-- Allowed values of `links.key` (`src/models/Project.js` 131–137). -/
def allowedLinkKeys : List String :=
  ["github", "demo", "article", "store", "appStore", "playStore",
   "website", "documentation", "video", "blog"]

/-- Whether one `links` entry satisfies the sub-document schema of
`src/models/Project.js` 131–162: `key` required and in the enum, `url`
required (non-empty after the `trim` setter), `title` at most 100 and
`description` at most 200 characters. -/
def linkSchemaValid : JVal → Bool
  | .obj kvs =>
    let f := fun k => bget kvs k
    (match f "key" with
     | .str k => allowedLinkKeys.contains k
     | _ => false) &&
    (match f "url" with
     | .str u => u.jsTrim ≠ ""
     | _ => false) &&
    (match f "title" with
     | .str t => t.jsTrim.length ≤ 100
     | .undef => true
     | _ => false) &&
    (match f "description" with
     | .str d => d.jsTrim.length ≤ 200
     | .undef => true
     | _ => false)
  | _ => false

/-- A skill document (`src/models/Skill.js`). -/
structure SkillDoc where
  id : Nat := 0
  name : String
  category : String := "Other"
  level : Int
  icon : String := ""
  color : String := "#899F87"
  description : String := ""
  isPublished : Bool := true
  order : Int := 0
deriving Repr, BEq, DecidableEq

/-- A social-link document (`src/models/Social.js`). -/
structure SocialDoc where
  id : Nat := 0
  platform : String
  url : String
  icon : String
  color : String := "#899F87"
  isActive : Bool := true
  order : Int := 0
deriving Repr, BEq, DecidableEq

/-- A certification document (`src/models/Certification.js`); dates are
modelled by their ISO strings. -/
structure CertDoc where
  id : Nat := 0
  title : String
  issuer : String
  date : String
  credentialUrl : String := ""
  logo : Option UploadResult := none
  description : String := ""
  isPublished : Bool := true
  order : Int := 0
deriving Repr, BEq, DecidableEq

/-- An experience document (`src/models/Experience.js`); the array
fields keep the JS value stored by the handlers. -/
structure ExperienceDoc where
  id : Nat := 0
  company : String
  role : String
  startDate : String
  endDate : Option String := none
  description : JVal := .arr []
  tech : JVal := .arr []
  location : String := ""
  icon : Option UploadResult := none
  color : String := "from-blue-500 to-cyan-500"
  etype : String := "work"
  achievements : JVal := .arr []
  isCurrent : Bool := false
  isPublished : Bool := true
deriving Repr, BEq

/-- One gallery image of a project (`src/models/Project.js` 31–44). -/
structure GalleryImage where
  gid : Nat := 0
  url : String
  public_id : String
  caption : String := ""
deriving Repr, BEq, DecidableEq

/-- A project document (`src/models/Project.js`); the tagged
sub-document arrays keep the JS value stored by the handlers. -/
structure ProjectDoc where
  id : Nat := 0
  title : String
  slug : String := ""
  description : String := ""
  cover : Option UploadResult := none
  gallery : List GalleryImage := []
  techStack : JVal := .arr []
  role : String := ""
  year : Int := 2000
  ptype : String := "mobile"
  features : JVal := .arr []
  links : JVal := .arr []
  stats : JVal := .obj []
  caseStudy : JVal := .obj []
  isFeatured : Bool := false
  isPublished : Bool := true
  createdAt : Nat := 0
deriving Repr, BEq

/-- The user profile document (`src/models/User.js` callers). -/
structure UserDoc where
  id : Nat := 0
  name : String
  email : String
  phone : String := ""
  bio : String := ""
  location : String := ""
  profilePicture : UploadResult := { url := "", public_id := "" }
  isActive : Bool := true
deriving Repr, BEq, DecidableEq

/-- The `category` enum of `src/models/Skill.js` 13. -/
def skillCategories : List String :=
  ["Languages", "Frameworks", "Tools", "Databases", "Other"]

/-- Schema-layer validity of a stored skill (`src/models/Skill.js`):
`name` required with maxlength 50 (the `trim` setter has already been
applied to stored values), `category` in the enum, `level` required and
between 1 and 100, `icon` maxlength 100, `description` maxlength 200. -/
def skillSchemaValid (d : SkillDoc) : Bool :=
  d.name ≠ "" && d.name.length ≤ 50 &&
  skillCategories.contains d.category &&
  decide (1 ≤ d.level) && decide (d.level ≤ 100) &&
  d.icon.length ≤ 100 &&
  d.description.length ≤ 200

/-- Schema-layer validity of a stored social link
(`src/models/Social.js`): `platform`, `url` and `icon` required, with
maxlengths 50, 500 and 100. -/
def socialSchemaValid (d : SocialDoc) : Bool :=
  d.platform ≠ "" && d.platform.length ≤ 50 &&
  d.url ≠ "" && d.url.length ≤ 500 &&
  d.icon ≠ "" && d.icon.length ≤ 100

/-- The mongoose `trim` setters of the skill schema, applied when a
document is built. -/
def skillApplySetters (d : SkillDoc) : SkillDoc :=
  { d with name := d.name.jsTrim, icon := d.icon.jsTrim, color := d.color.jsTrim }

/-- The mongoose `trim` setters of the social schema. -/
def socialApplySetters (d : SocialDoc) : SocialDoc :=
  { d with platform := d.platform.jsTrim, url := d.url.jsTrim,
           icon := d.icon.jsTrim, color := d.color.jsTrim }

/-- `Skill.create`: apply setters, run the schema validators, and either
append the document or reject with a validation error. -/
def skillModelCreate (coll : List SkillDoc) (d : SkillDoc) :
    Except String (List SkillDoc × SkillDoc) :=
  let doc := skillApplySetters d
  if skillSchemaValid doc then .ok (coll ++ [doc], doc)
  else .error "ValidationError"

/-- `Social.create`. -/
def socialModelCreate (coll : List SocialDoc) (d : SocialDoc) :
    Except String (List SocialDoc × SocialDoc) :=
  let doc := socialApplySetters d
  if socialSchemaValid doc then .ok (coll ++ [doc], doc)
  else .error "ValidationError"

/-- The `$set` document built by the skill `PUT /:id` handler
(`src/routes/skills.js` 225–229): one optional entry per body field. -/
structure SkillUpdate where
  name : Option String := none
  category : Option String := none
  level : Option Int := none
  icon : Option String := none
  color : Option String := none
  description : Option String := none
  isPublished : Option Bool := none
  order : Option Int := none
deriving Repr, BEq, DecidableEq

/-- `findByIdAndUpdate` field semantics: fields present in the update are
set (through the schema `trim` setters), absent fields are untouched. -/
def applySkillUpdate (d : SkillDoc) (u : SkillUpdate) : SkillDoc :=
  { d with
    name := (u.name.map String.jsTrim).getD d.name
    category := u.category.getD d.category
    level := u.level.getD d.level
    icon := (u.icon.map String.jsTrim).getD d.icon
    color := (u.color.map String.jsTrim).getD d.color
    description := u.description.getD d.description
    isPublished := u.isPublished.getD d.isPublished
    order := u.order.getD d.order }

/-- The update validators run by `runValidators: true` on a skill
update: each updated path is checked against its schema constraints. -/
def skillUpdateValid (u : SkillUpdate) : Bool :=
  (match u.name with
   | some n => n.jsTrim ≠ "" && n.jsTrim.length ≤ 50
   | none => true) &&
  (match u.category with
   | some c => skillCategories.contains c
   | none => true) &&
  (match u.level with
   | some l => decide (1 ≤ l) && decide (l ≤ 100)
   | none => true) &&
  (match u.icon with
   | some i => i.jsTrim.length ≤ 100
   | none => true) &&
  (match u.description with
   | some s => s.length ≤ 200
   | none => true)

/-- `Skill.findByIdAndUpdate(id, updateData, {new: true,
runValidators: true})`. -/
def skillModelUpdate (coll : List SkillDoc) (i : Nat) (u : SkillUpdate) :
    Except String (List SkillDoc) :=
  if skillUpdateValid u then
    .ok (coll.map (fun d => if d.id = i then applySkillUpdate d u else d))
  else .error "ValidationError"

/-- The `$set` document built by the social `PUT /:id` handler
(`src/routes/socials.js` 175–179). -/
structure SocialUpdate where
  platform : Option String := none
  url : Option String := none
  icon : Option String := none
  color : Option String := none
  isActive : Option Bool := none
  order : Option Int := none
deriving Repr, BEq, DecidableEq

def applySocialUpdate (d : SocialDoc) (u : SocialUpdate) : SocialDoc :=
  { d with
    platform := (u.platform.map String.jsTrim).getD d.platform
    url := (u.url.map String.jsTrim).getD d.url
    icon := (u.icon.map String.jsTrim).getD d.icon
    color := (u.color.map String.jsTrim).getD d.color
    isActive := u.isActive.getD d.isActive
    order := u.order.getD d.order }

/-- Update validators of the social schema on the updated paths. -/
def socialUpdateValid (u : SocialUpdate) : Bool :=
  (match u.platform with
   | some p => p.jsTrim ≠ "" && p.jsTrim.length ≤ 50
   | none => true) &&
  (match u.url with
   | some x => x.jsTrim ≠ "" && x.jsTrim.length ≤ 500
   | none => true) &&
  (match u.icon with
   | some i => i.jsTrim ≠ "" && i.jsTrim.length ≤ 100
   | none => true)

def socialModelUpdate (coll : List SocialDoc) (i : Nat) (u : SocialUpdate) :
    Except String (List SocialDoc) :=
  if socialUpdateValid u then
    .ok (coll.map (fun d => if d.id = i then applySocialUpdate d u else d))
  else .error "ValidationError"

/-! ### express-validator chains -/

/-- `JSON.parse(v)` for a non-string argument coerces through `String(v)`
first; primitives survive, arrays and objects do not re-parse. -/
def jpJ (jp : String → Option JVal) : JVal → Option JVal
  | .str s => jp s
  | .num n => some (.num n)
  | .bool b => some (.bool b)
  | .null => some .null
  | .undef => none
  | .arr _ => none
  | .obj _ => none

/-- `value.trim().replace(/^\[|\]$/g, '')`: one leading `[` and one
trailing `]` are stripped. -/
def stripBrackets (s : String) : String :=
  let l := s.toList
  let l := match l with
    | '[' :: rest => rest
    | _ => l
  let l := match l.reverse with
    | ']' :: rest => rest.reverse
    | _ => l
  String.mk l

/-- `item.trim().replace(/^['"]|['"]$/g, '')`: one leading and one
trailing quote character are stripped. -/
def stripQuotes (s : String) : String :=
  let quote : Char := Char.ofNat 39
  let l := s.toList
  let l := match l with
    | c :: rest => if c = quote ∨ c = '"' then rest else c :: rest
    | [] => []
  let l := match l.reverse with
    | c :: rest => if c = quote ∨ c = '"' then rest.reverse else (c :: rest).reverse
    | [] => []
  String.mk l

/-- The comma-list fallback of the custom techStack/features validators
(`src/routes/projects.js` 203–208). -/
def cleanSplit (s : String) : List String :=
  let clean := stripBrackets s.jsTrim
  (((jsSplit ',' clean).map (fun i => stripQuotes i.jsTrim)).filter (fun x => x ≠ ""))

/-- A required `.trim().isLength({min, max})` validator. -/
def vReqLen (b : Body) (k : String) (lo hi : Nat) (msg : String) : List String :=
  match bget b k with
  | .undef => [msg]
  | v =>
    let s := v.toStr.jsTrim
    if lo ≤ s.length ∧ s.length ≤ hi then [] else [msg]

/-- An `.optional().trim().isLength({min, max})` validator. -/
def vOptLen (b : Body) (k : String) (lo hi : Nat) (msg : String) : List String :=
  match bget b k with
  | .undef => []
  | v =>
    let s := v.toStr.jsTrim
    if lo ≤ s.length ∧ s.length ≤ hi then [] else [msg]

/-- A required `.isInt({min, max})` validator. -/
def vReqInt (b : Body) (k : String) (lo : Int) (hi : Option Int) (msg : String) :
    List String :=
  match bget b k with
  | .undef => [msg]
  | v =>
    match isIntStr v.toStr with
    | some n => if lo ≤ n ∧ (∀ h ∈ hi, n ≤ h) then [] else [msg]
    | none => [msg]

/-- An `.optional().isInt({min, max})` validator. -/
def vOptInt (b : Body) (k : String) (lo : Int) (hi : Option Int) (msg : String) :
    List String :=
  match bget b k with
  | .undef => []
  | v =>
    match isIntStr v.toStr with
    | some n => if lo ≤ n ∧ (∀ h ∈ hi, n ≤ h) then [] else [msg]
    | none => [msg]

/-- A required `.isIn([...])` validator. -/
def vReqIn (b : Body) (k : String) (xs : List String) (msg : String) : List String :=
  match bget b k with
  | .undef => [msg]
  | v => if xs.contains v.toStr then [] else [msg]

/-- An `.optional().isIn([...])` validator. -/
def vOptIn (b : Body) (k : String) (xs : List String) (msg : String) : List String :=
  match bget b k with
  | .undef => []
  | v => if xs.contains v.toStr then [] else [msg]

/-- validator.js `isISO8601` (date strings are modelled as `YYYY-MM-DD`). -/
def isISODate (s : String) : Bool :=
  match s.toList with
  | [y1, y2, y3, y4, '-', m1, m2, '-', d1, d2] =>
    [y1, y2, y3, y4, m1, m2, d1, d2].all Char.isDigit
  | _ => false

/-- A required `.isISO8601()` validator. -/
def vReqISO (b : Body) (k : String) (msg : String) : List String :=
  match bget b k with
  | .undef => [msg]
  | v => if isISODate v.toStr then [] else [msg]

/-- An `.optional().isISO8601()` validator. -/
def vOptISO (b : Body) (k : String) (msg : String) : List String :=
  match bget b k with
  | .undef => []
  | v => if isISODate v.toStr then [] else [msg]

/-- validator.js `isURL`, restricted to http(s) URLs. -/
def isURLm (s : String) : Bool :=
  ("http://".toList.isPrefixOf s.toList && s.length > 7) ||
  ("https://".toList.isPrefixOf s.toList && s.length > 8)

/-- A required `.isURL()` validator. -/
def vReqURL (b : Body) (k : String) (msg : String) : List String :=
  match bget b k with
  | .undef => [msg]
  | v => if isURLm v.toStr then [] else [msg]

/-- An `.optional().isURL()` validator. -/
def vOptURL (b : Body) (k : String) (msg : String) : List String :=
  match bget b k with
  | .undef => []
  | v => if isURLm v.toStr then [] else [msg]

/-- An `.optional().isBoolean()` validator. -/
def vOptBool (b : Body) (k : String) (msg : String) : List String :=
  match bget b k with
  | .undef => []
  | v => if v.toStr ∈ ["true", "false", "0", "1"] then [] else [msg]

/-- A required `.isArray({min})` validator. -/
def vReqArray (b : Body) (k : String) (minLen : Nat) (msg : String) : List String :=
  match bget b k with
  | .arr xs => if minLen ≤ xs.length then [] else [msg]
  | _ => [msg]

/-- An `.optional().isArray(...)` validator. -/
def vOptArray (b : Body) (k : String) (minLen : Nat) (msg : String) : List String :=
  match bget b k with
  | .undef => []
  | .arr xs => if minLen ≤ xs.length then [] else [msg]
  | _ => [msg]

/-- Mongoose number cast of a body value. -/
def castInt (v : JVal) : Int :=
  match v with
  | .num n => n
  | .str s => (isIntStr s).getD 0
  | .bool b => if b then 1 else 0
  | _ => 0

/-- Mongoose boolean cast of a body value. -/
def castBool (v : JVal) : Bool :=
  match v with
  | .bool b => b
  | .str s => s == "true" || s == "1"
  | .num n => n != 0
  | _ => false

/-- `parseInt` applied to a body value (stringified first). -/
def parseIntJ (v : JVal) : Int :=
  (parseIntJS v.toStr).getD 0

/-- Route parameters hold Mongo ids; documents are keyed by `Nat` ids
written in decimal, and an unparsable id behaves like a cast error. -/
def parseId (s : String) : Option Nat :=
  if s.toList ≠ [] ∧ s.toList.all Char.isDigit then
    some (s.toList.foldl (fun a c => a * 10 + (c.toNat - 48)) 0)
  else none

/-- `toLowerCase` over the character list (the `lowercase: true` schema
setter). -/
def lowerStr (s : String) : String :=
  String.mk (s.toList.map Char.toLower)

/-- Mongoose `String` cast of a body value: primitives are stringified,
arrays and objects are a `CastError` (`none`). -/
def castStrField : JVal → Option String
  | .str s => some s
  | .num n => some (toString n)
  | .bool b => some (if b then "true" else "false")
  | .undef => some ""
  | .null => some ""
  | .arr _ => none
  | .obj _ => none

/-- Mongoose cast of a body value to a `{url, public_id}` nested object
(`cover`, `logo`, `icon`): objects cast field-wise through the `String`
caster, anything else is a `CastError`. -/
def castUploadObj : JVal → Option UploadResult
  | .obj kvs =>
    match castStrField (bget kvs "url"), castStrField (bget kvs "public_id") with
    | some u, some p => some { url := u, public_id := p }
    | _, _ => none
  | _ => none

/-- Mongoose cast of one body value to a `gallery` sub-document (fresh
sub-document ids are modelled as 0); the caption maxlength enforced by
`runValidators` is folded into the cast, since both failures surface as
the same thrown error. -/
def castGalleryImage : JVal → Option GalleryImage
  | .obj kvs =>
    match castStrField (bget kvs "url"), castStrField (bget kvs "public_id"),
          castStrField (bget kvs "caption") with
    | some u, some p, some cp =>
      if cp.length ≤ 200 then some { gid := 0, url := u, public_id := p, caption := cp }
      else none
    | _, _, _ => none
  | _ => none

/-- Mongoose cast of a body value to the `gallery` array. -/
def castGallery : JVal → Option (List GalleryImage)
  | .arr xs => xs.mapM castGalleryImage
  | _ => none

/-! ### Skills router (`src/routes/skills.js`) -/

structure SkillsDb where
  skills : List SkillDoc := []
  nextId : Nat := 0
deriving Repr

/-- The validator array of `POST /api/skills` (94–124). -/
def skillCreateValidators (req : Request) : List String :=
  let b := req.body
  vReqLen b "name" 1 50 "Skill name is required and cannot exceed 50 characters" ++
  vReqIn b "category" skillCategories
    "Category must be Languages, Frameworks, Tools, Databases, or Other" ++
  vReqInt b "level" 1 (some 100) "Level must be between 1 and 100" ++
  vOptLen b "icon" 0 100 "Icon name cannot exceed 100 characters" ++
  vOptLen b "color" 0 7 "Color must be a valid hex color" ++
  vOptLen b "description" 0 200 "Description cannot exceed 200 characters" ++
  vOptInt b "order" 0 none "Order must be a positive integer"

/-- The validator array of `PUT /api/skills/:id` (172–204). -/
def skillUpdateValidators (req : Request) : List String :=
  let b := req.body
  vOptLen b "name" 1 50 "Skill name cannot exceed 50 characters" ++
  vOptIn b "category" skillCategories
    "Category must be Languages, Frameworks, Tools, Databases, or Other" ++
  vOptInt b "level" 1 (some 100) "Level must be between 1 and 100" ++
  vOptLen b "icon" 0 100 "Icon name cannot exceed 100 characters" ++
  vOptLen b "color" 0 7 "Color must be a valid hex color" ++
  vOptLen b "description" 0 200 "Description cannot exceed 200 characters" ++
  vOptInt b "order" 0 none "Order must be a positive integer"

/-- The handler of `POST /api/skills` (124–167). -/
def skillCreateHandler : Mw (UpCtx × SkillsDb) := fun req (c, g) =>
  if c.errors ≠ [] then
    .halt (c, g) { status := 400, success := false, errors := c.errors }
  else
    let b := req.body
    let d : SkillDoc :=
      { id := g.nextId
        name := (bget b "name").toStr
        category := (bget b "category").toStr
        level := parseIntJ (bget b "level")
        icon := if (bget b "icon").falsy then "" else (bget b "icon").toStr
        color := if (bget b "color").falsy then "#899F87" else (bget b "color").toStr
        description := if (bget b "description").falsy then ""
                       else (bget b "description").toStr
        order := if (bget b "order").falsy then 0 else parseIntJ (bget b "order") }
    match skillModelCreate g.skills d with
    | .ok (coll, _) =>
      .halt (c, { g with skills := coll, nextId := g.nextId + 1 })
        { status := 201, success := true }
    | .error _ =>
      .halt (c, g) { status := 500, success := false, message := "Server error" }

/-- The `$set` document built from the body by `PUT /api/skills/:id`
(225–229): the spread of `req.body` plus `parseInt` on `level`/`order`. -/
def mkSkillUpdate (b : Body) : SkillUpdate :=
  { name := match bget b "name" with | .undef => none | v => some v.toStr
    category := match bget b "category" with | .undef => none | v => some v.toStr
    level := match bget b "level" with | .undef => none | v => some (parseIntJ v)
    icon := match bget b "icon" with | .undef => none | v => some v.toStr
    color := match bget b "color" with | .undef => none | v => some v.toStr
    description := match bget b "description" with | .undef => none | v => some v.toStr
    isPublished := match bget b "isPublished" with | .undef => none | v => some (castBool v)
    order := match bget b "order" with | .undef => none | v => some (parseIntJ v) }

/-- The handler of `PUT /api/skills/:id` (205–248). -/
def skillUpdateHandler : Mw (UpCtx × SkillsDb) := fun req (c, g) =>
  if c.errors ≠ [] then
    .halt (c, g) { status := 400, success := false, errors := c.errors }
  else
    match parseId (pget req "id") with
    | none => .halt (c, g) { status := 500, success := false, message := "Server error" }
    | some i =>
      match g.skills.find? (fun d => d.id = i) with
      | none => .halt (c, g) { status := 404, success := false, message := "Skill not found" }
      | some _ =>
        match skillModelUpdate g.skills i (mkSkillUpdate req.body) with
        | .ok coll => .halt (c, { g with skills := coll }) { status := 200, success := true }
        | .error _ =>
          .halt (c, g) { status := 500, success := false, message := "Server error" }

/-- The handler of `DELETE /api/skills/:id` (254–277). -/
def skillDeleteHandler : Mw (UpCtx × SkillsDb) := fun req (c, g) =>
  match parseId (pget req "id") with
  | none => .halt (c, g) { status := 500, success := false, message := "Server error" }
  | some i =>
    match g.skills.find? (fun d => d.id = i) with
    | none => .halt (c, g) { status := 404, success := false, message := "Skill not found" }
    | some _ =>
      .halt (c, { g with skills := g.skills.filter (fun d => d.id ≠ i) })
        { status := 200, success := true, message := "Skill deleted successfully" }

/-- The validator array of `PUT /api/skills/order` (282–291). -/
def skillOrderValidators (req : Request) : List String :=
  let b := req.body
  vReqArray b "skills" 0 "Skills must be an array" ++
  (match bget b "skills" with
   | .arr xs =>
     xs.flatMap (fun x =>
       match x with
       | .obj kvs =>
         (match bget kvs "id" with
          | .str s => if s.length = 24 ∧ s.toList.all (fun c =>
              c.isDigit ∨ ('a' ≤ c ∧ c ≤ 'f')) then [] else ["Invalid skill ID"]
          | _ => ["Invalid skill ID"]) ++
         (match isIntStr (bget kvs "order").toStr with
          | some n => if 0 ≤ n then [] else ["Order must be a positive integer"]
          | none => ["Order must be a positive integer"])
       | _ => ["Invalid skill ID", "Order must be a positive integer"])
   | _ => [])

/-- The handler of `PUT /api/skills/order` (292–323). -/
def skillOrderHandler : Mw (UpCtx × SkillsDb) := fun req (c, g) =>
  if c.errors ≠ [] then
    .halt (c, g) { status := 400, success := false, errors := c.errors }
  else
    match bget req.body "skills" with
    | .arr xs =>
      let coll := xs.foldl (fun acc x =>
        match x with
        | .obj kvs =>
          match parseId (bget kvs "id").toStr with
          | some i =>
            acc.map (fun d => if d.id = i then { d with order := castInt (bget kvs "order") } else d)
          | none => acc
        | _ => acc) g.skills
      .halt (c, { g with skills := coll })
        { status := 200, success := true, message := "Skills order updated successfully" }
    | _ => .halt (c, g) { status := 200, success := true, message := "Skills order updated successfully" }

def skillCreatePipeline : List (Mw (UpCtx × SkillsDb)) :=
  [protectMw, validateMw skillCreateValidators, skillCreateHandler]

def skillUpdatePipeline : List (Mw (UpCtx × SkillsDb)) :=
  [protectMw, validateMw skillUpdateValidators, skillUpdateHandler]

def skillDeletePipeline : List (Mw (UpCtx × SkillsDb)) :=
  [protectMw, skillDeleteHandler]

def skillOrderPipeline : List (Mw (UpCtx × SkillsDb)) :=
  [protectMw, validateMw skillOrderValidators, skillOrderHandler]

/-! ### Socials router (`src/routes/socials.js`) -/

structure SocialsDb where
  socials : List SocialDoc := []
  nextId : Nat := 0
deriving Repr

/-- The validator array of `POST /api/socials` (62–82). -/
def socialCreateValidators (req : Request) : List String :=
  let b := req.body
  vReqLen b "platform" 1 50 "Platform name is required and cannot exceed 50 characters" ++
  vReqURL b "url" "URL must be a valid URL" ++
  vReqLen b "icon" 1 100 "Icon is required and cannot exceed 100 characters" ++
  vOptLen b "color" 0 7 "Color must be a valid hex color" ++
  vOptInt b "order" 0 none "Order must be a positive integer"

/-- The validator array of `PUT /api/socials/:id` (127–154). -/
def socialUpdateValidators (req : Request) : List String :=
  let b := req.body
  vOptLen b "platform" 1 50 "Platform name cannot exceed 50 characters" ++
  vOptURL b "url" "URL must be a valid URL" ++
  vOptLen b "icon" 1 100 "Icon cannot exceed 100 characters" ++
  vOptLen b "color" 0 7 "Color must be a valid hex color" ++
  vOptInt b "order" 0 none "Order must be a positive integer" ++
  vOptBool b "isActive" "isActive must be a boolean"

/-- The handler of `POST /api/socials` (83–122). -/
def socialCreateHandler : Mw (UpCtx × SocialsDb) := fun req (c, g) =>
  if c.errors ≠ [] then
    .halt (c, g) { status := 400, success := false, errors := c.errors }
  else
    let b := req.body
    let d : SocialDoc :=
      { id := g.nextId
        platform := (bget b "platform").toStr
        url := (bget b "url").toStr
        icon := (bget b "icon").toStr
        color := if (bget b "color").falsy then "#899F87" else (bget b "color").toStr
        order := if (bget b "order").falsy then 0 else parseIntJ (bget b "order") }
    match socialModelCreate g.socials d with
    | .ok (coll, _) =>
      .halt (c, { g with socials := coll, nextId := g.nextId + 1 })
        { status := 201, success := true }
    | .error _ =>
      .halt (c, g) { status := 500, success := false, message := "Server error" }

/-- The `$set` document built by `PUT /api/socials/:id` (175–179): the
spread of `req.body`, `parseInt` on a truthy `order`, and
`req.body.isActive === 'true'` when `isActive` is defined. -/
def mkSocialUpdate (b : Body) : SocialUpdate :=
  { platform := match bget b "platform" with | .undef => none | v => some v.toStr
    url := match bget b "url" with | .undef => none | v => some v.toStr
    icon := match bget b "icon" with | .undef => none | v => some v.toStr
    color := match bget b "color" with | .undef => none | v => some v.toStr
    isActive := match bget b "isActive" with
      | .undef => none
      | v => some (v == JVal.str "true")
    order := match bget b "order" with | .undef => none | v => some (parseIntJ v) }

/-- The handler of `PUT /api/socials/:id` (155–199). -/
def socialUpdateHandler : Mw (UpCtx × SocialsDb) := fun req (c, g) =>
  if c.errors ≠ [] then
    .halt (c, g) { status := 400, success := false, errors := c.errors }
  else
    match parseId (pget req "id") with
    | none => .halt (c, g) { status := 500, success := false, message := "Server error" }
    | some i =>
      match g.socials.find? (fun d => d.id = i) with
      | none =>
        .halt (c, g) { status := 404, success := false, message := "Social link not found" }
      | some _ =>
        match socialModelUpdate g.socials i (mkSocialUpdate req.body) with
        | .ok coll => .halt (c, { g with socials := coll }) { status := 200, success := true }
        | .error _ =>
          .halt (c, g) { status := 500, success := false, message := "Server error" }

/-- The handler of `DELETE /api/socials/:id` (204–227). -/
def socialDeleteHandler : Mw (UpCtx × SocialsDb) := fun req (c, g) =>
  match parseId (pget req "id") with
  | none => .halt (c, g) { status := 500, success := false, message := "Server error" }
  | some i =>
    match g.socials.find? (fun d => d.id = i) with
    | none =>
      .halt (c, g) { status := 404, success := false, message := "Social link not found" }
    | some _ =>
      .halt (c, { g with socials := g.socials.filter (fun d => d.id ≠ i) })
        { status := 200, success := true, message := "Social link deleted successfully" }

/-- The validator array of `PUT /api/socials/order` (232–241). -/
def socialOrderValidators (req : Request) : List String :=
  let b := req.body
  vReqArray b "socials" 0 "Socials must be an array" ++
  (match bget b "socials" with
   | .arr xs =>
     xs.flatMap (fun x =>
       match x with
       | .obj kvs =>
         (match bget kvs "id" with
          | .str s => if s.length = 24 ∧ s.toList.all (fun c =>
              c.isDigit ∨ ('a' ≤ c ∧ c ≤ 'f')) then [] else ["Invalid social ID"]
          | _ => ["Invalid social ID"]) ++
         (match isIntStr (bget kvs "order").toStr with
          | some n => if 0 ≤ n then [] else ["Order must be a positive integer"]
          | none => ["Order must be a positive integer"])
       | _ => ["Invalid social ID", "Order must be a positive integer"])
   | _ => [])

/-- The handler of `PUT /api/socials/order` (242–273). -/
def socialOrderHandler : Mw (UpCtx × SocialsDb) := fun req (c, g) =>
  if c.errors ≠ [] then
    .halt (c, g) { status := 400, success := false, errors := c.errors }
  else
    match bget req.body "socials" with
    | .arr xs =>
      let coll := xs.foldl (fun acc x =>
        match x with
        | .obj kvs =>
          match parseId (bget kvs "id").toStr with
          | some i =>
            acc.map (fun d => if d.id = i then { d with order := castInt (bget kvs "order") } else d)
          | none => acc
        | _ => acc) g.socials
      .halt (c, { g with socials := coll })
        { status := 200, success := true, message := "Social links order updated successfully" }
    | _ =>
      .halt (c, g)
        { status := 200, success := true, message := "Social links order updated successfully" }

def socialCreatePipeline : List (Mw (UpCtx × SocialsDb)) :=
  [protectMw, validateMw socialCreateValidators, socialCreateHandler]

def socialUpdatePipeline : List (Mw (UpCtx × SocialsDb)) :=
  [protectMw, validateMw socialUpdateValidators, socialUpdateHandler]

def socialDeletePipeline : List (Mw (UpCtx × SocialsDb)) :=
  [protectMw, socialDeleteHandler]

def socialOrderPipeline : List (Mw (UpCtx × SocialsDb)) :=
  [protectMw, validateMw socialOrderValidators, socialOrderHandler]

/-! ### Certifications router (`src/routes/certifications.js`) -/

structure CertsDb where
  certs : List CertDoc := []
  nextId : Nat := 0
  deleteAttempts : List String := []
  mediaDeleted : List String := []
  deleteFails : String → Bool := fun _ => false

/-- `deleteFromCloudinary` wrapped in the handlers' `try/catch`: the
attempt is always recorded; when the destroy call fails the error is
only logged. -/
def certTryDestroy (g : CertsDb) (pid : String) : CertsDb :=
  let g' := { g with deleteAttempts := g.deleteAttempts ++ [pid] }
  if g.deleteFails pid then g'
  else { g' with mediaDeleted := g'.mediaDeleted ++ [pid] }

/-- The validator array of `POST /api/certifications` (64–88). -/
def certCreateValidators (req : Request) : List String :=
  let b := req.body
  vReqLen b "title" 1 200 "Title is required and cannot exceed 200 characters" ++
  vReqLen b "issuer" 1 100 "Issuer is required and cannot exceed 100 characters" ++
  vReqISO b "date" "Date must be a valid date" ++
  vOptURL b "credentialUrl" "Credential URL must be a valid URL" ++
  vOptLen b "description" 0 500 "Description cannot exceed 500 characters" ++
  vOptInt b "order" 0 none "Order must be a positive integer"

/-- The validator array of `PUT /api/certifications/:id` (145–172). -/
def certUpdateValidators (req : Request) : List String :=
  let b := req.body
  vOptLen b "title" 1 200 "Title cannot exceed 200 characters" ++
  vOptLen b "issuer" 1 100 "Issuer cannot exceed 100 characters" ++
  vOptISO b "date" "Date must be a valid date" ++
  vOptURL b "credentialUrl" "Credential URL must be a valid URL" ++
  vOptLen b "description" 0 500 "Description cannot exceed 500 characters" ++
  vOptInt b "order" 0 none "Order must be a positive integer"

/-- The handler of `POST /api/certifications` (89–140). -/
def certCreateHandler : Mw (UpCtx × CertsDb) := fun req (c, g) =>
  if c.errors ≠ [] then
    .halt (c, g) { status := 400, success := false, errors := c.errors }
  else
    let b := req.body
    let d : CertDoc :=
      { id := g.nextId
        title := (bget b "title").toStr.jsTrim
        issuer := (bget b "issuer").toStr.jsTrim
        date := (bget b "date").toStr
        credentialUrl := if (bget b "credentialUrl").falsy then ""
                         else (bget b "credentialUrl").toStr.jsTrim
        description := if (bget b "description").falsy then ""
                       else (bget b "description").toStr
        order := if (bget b "order").falsy then 0 else parseIntJ (bget b "order")
        logo := c.cloudinaryResult }
    .halt (c, { g with certs := g.certs ++ [d], nextId := g.nextId + 1 })
      { status := 201, success := true }

/-- The `$set` document of `PUT /api/certifications/:id` (193–214). -/
structure CertUpdate where
  title : Option String := none
  issuer : Option String := none
  date : Option String := none
  credentialUrl : Option String := none
  description : Option String := none
  order : Option Int := none
  isPublished : Option Bool := none
  logo : Option UploadResult := none
deriving Repr, BEq

/-- The spread `updateData = { ...req.body }` also carries a
body-supplied `logo` key; it is only overwritten when a file was
uploaded.  A body logo that fails the nested-object cast throws at
`findByIdAndUpdate`, which `certUpdateCastOk` tracks. -/
def mkCertUpdate (b : Body) (logo : Option UploadResult) : CertUpdate :=
  { title := match bget b "title" with | .undef => none | v => some v.toStr.jsTrim
    issuer := match bget b "issuer" with | .undef => none | v => some v.toStr.jsTrim
    date := match bget b "date" with | .undef => none | v => some v.toStr
    credentialUrl := match bget b "credentialUrl" with
      | .undef => none | v => some v.toStr.jsTrim
    description := match bget b "description" with | .undef => none | v => some v.toStr
    order := match bget b "order" with | .undef => none | v => some (parseIntJ v)
    isPublished := match bget b "isPublished" with | .undef => none | v => some (castBool v)
    logo := match logo with
      | some l => some l
      | none =>
        match bget b "logo" with
        | .undef => none
        | v => castUploadObj v }

/-- Whether the `$set` document of a certification update casts; when it
does not, `findByIdAndUpdate` throws and the handler answers 500. -/
def certUpdateCastOk (b : Body) (hasUpload : Bool) : Bool :=
  hasUpload ||
    (match bget b "logo" with
     | .undef => true
     | v => (castUploadObj v).isSome)

def applyCertUpdate (d : CertDoc) (u : CertUpdate) : CertDoc :=
  { d with
    title := u.title.getD d.title
    issuer := u.issuer.getD d.issuer
    date := u.date.getD d.date
    credentialUrl := u.credentialUrl.getD d.credentialUrl
    description := u.description.getD d.description
    order := u.order.getD d.order
    isPublished := u.isPublished.getD d.isPublished
    logo := match u.logo with | some l => some l | none => d.logo }

/-- The handler of `PUT /api/certifications/:id` (173–234). -/
def certUpdateHandler : Mw (UpCtx × CertsDb) := fun req (c, g) =>
  if c.errors ≠ [] then
    .halt (c, g) { status := 400, success := false, errors := c.errors }
  else
    match parseId (pget req "id") with
    | none => .halt (c, g) { status := 500, success := false, message := "Server error" }
    | some i =>
      match g.certs.find? (fun d => d.id = i) with
      | none =>
        .halt (c, g) { status := 404, success := false, message := "Certification not found" }
      | some cert =>
        let g₁ :=
          match c.cloudinaryResult with
          | some _ =>
            match cert.logo with
            | some l => if l.public_id ≠ "" then certTryDestroy g l.public_id else g
            | none => g
          | none => g
        if certUpdateCastOk req.body c.cloudinaryResult.isSome then
          let u := mkCertUpdate req.body c.cloudinaryResult
          .halt (c, { g₁ with
                      certs := g₁.certs.map (fun d =>
                        if d.id = i then applyCertUpdate d u else d) })
            { status := 200, success := true }
        else
          .halt (c, g₁) { status := 500, success := false, message := "Server error" }

/-- The handler of `DELETE /api/certifications/:id` (239–271). -/
def certDeleteHandler : Mw (UpCtx × CertsDb) := fun req (c, g) =>
  match parseId (pget req "id") with
  | none => .halt (c, g) { status := 500, success := false, message := "Server error" }
  | some i =>
    match g.certs.find? (fun d => d.id = i) with
    | none =>
      .halt (c, g) { status := 404, success := false, message := "Certification not found" }
    | some cert =>
      let g₁ :=
        match cert.logo with
        | some l => if l.public_id ≠ "" then certTryDestroy g l.public_id else g
        | none => g
      .halt (c, { g₁ with certs := g₁.certs.filter (fun d => d.id ≠ i) })
        { status := 200, success := true, message := "Certification deleted successfully" }

def certCreatePipeline : List (Mw (UpCtx × CertsDb)) :=
  [protectMw, uploadLogoMw, processImageUploadMw,
   validateMw certCreateValidators, certCreateHandler]

def certUpdatePipeline : List (Mw (UpCtx × CertsDb)) :=
  [protectMw, uploadLogoMw, processImageUploadMw,
   validateMw certUpdateValidators, certUpdateHandler]

def certDeletePipeline : List (Mw (UpCtx × CertsDb)) :=
  [protectMw, certDeleteHandler]

/-! ### Experiences router (`src/routes/experiences.js`) -/

structure ExpDb where
  experiences : List ExperienceDoc := []
  nextId : Nat := 0
deriving Repr

def expTypes : List String := ["work", "training", "education", "internship"]

/-- The validator array of `POST /api/experiences` (65–109). -/
def expCreateValidators (req : Request) : List String :=
  let b := req.body
  vReqLen b "company" 1 100 "Company name is required and cannot exceed 100 characters" ++
  vReqLen b "role" 1 100 "Role is required and cannot exceed 100 characters" ++
  vReqISO b "startDate" "Start date must be a valid date" ++
  vOptISO b "endDate" "End date must be a valid date" ++
  vReqArray b "description" 1 "At least one description point is required" ++
  vOptArray b "tech" 0 "Tech must be an array" ++
  vOptLen b "location" 0 100 "Location cannot exceed 100 characters" ++
  vOptLen b "color" 0 50 "Color cannot exceed 50 characters" ++
  vOptIn b "type" expTypes "Type must be one of: work, training, education, internship" ++
  vOptArray b "achievements" 0 "Achievements must be an array" ++
  vOptBool b "isCurrent" "isCurrent must be a boolean"

/-- The validator array of `PUT /api/experiences/:id` (176–224). -/
def expUpdateValidators (req : Request) : List String :=
  let b := req.body
  vOptLen b "company" 1 100 "Company name cannot exceed 100 characters" ++
  vOptLen b "role" 1 100 "Role cannot exceed 100 characters" ++
  vOptISO b "startDate" "Start date must be a valid date" ++
  vOptISO b "endDate" "End date must be a valid date" ++
  vOptArray b "description" 1 "At least one description point is required" ++
  vOptArray b "tech" 0 "Tech must be an array" ++
  vOptLen b "location" 0 100 "Location cannot exceed 100 characters" ++
  vOptLen b "color" 0 50 "Color cannot exceed 50 characters" ++
  vOptIn b "type" expTypes "Type must be one of: work, training, education, internship" ++
  vOptArray b "achievements" 0 "Achievements must be an array" ++
  vOptBool b "isCurrent" "isCurrent must be a boolean"

/-- `Array.isArray(v) ? v : (typeof v === 'string' ? JSON.parse(v) : [v])`
(`none` models a thrown parse error). -/
def parseArrayish (jp : String → Option JVal) (v : JVal) : Option JVal :=
  match v with
  | .arr xs => some (.arr xs)
  | .str s => jp s
  | w => some (.arr [w])

/-- The handler of `POST /api/experiences` (110–171).  The icon data
uses `req.iconResult.secure_url`, a field the upload helper does not
return, so the stored icon url is undefined (modelled as `""`). -/
def expCreateHandler (jp : String → Option JVal) : Mw (UpCtx × ExpDb) := fun req (c, g) =>
  if c.errors ≠ [] then
    .halt (c, g) { status := 400, success := false, errors := c.errors }
  else
    let b := req.body
    let descr := parseArrayish jp (bget b "description")
    let tech := if (bget b "tech").falsy then some (JVal.arr [])
                else parseArrayish jp (bget b "tech")
    let achievements := if (bget b "achievements").falsy then some (JVal.arr [])
                        else parseArrayish jp (bget b "achievements")
    match descr, tech, achievements with
    | some de, some te, some ach =>
      let d : ExperienceDoc :=
        { id := g.nextId
          company := (bget b "company").toStr.jsTrim
          role := (bget b "role").toStr.jsTrim
          startDate := (bget b "startDate").toStr
          endDate := if (bget b "endDate").falsy then none
                     else some (bget b "endDate").toStr
          description := de
          tech := te
          location := if (bget b "location").falsy then ""
                      else (bget b "location").toStr.jsTrim
          icon := c.iconResult.map (fun r => { url := "", public_id := r.public_id })
          color := if (bget b "color").falsy then "from-blue-500 to-cyan-500"
                   else (bget b "color").toStr.jsTrim
          etype := if (bget b "type").falsy then "work" else (bget b "type").toStr
          achievements := ach
          isCurrent := bget b "isCurrent" == JVal.str "true" ||
                       bget b "isCurrent" == JVal.bool true }
      .halt (c, { g with experiences := g.experiences ++ [d], nextId := g.nextId + 1 })
        { status := 201, success := true }
    | _, _, _ =>
      .halt (c, g) { status := 500, success := false, message := "Server error" }

/-- The `$set` document of `PUT /api/experiences/:id` (244–288):
`description`/`tech`/`achievements` parse failures are caught field-wise
and replaced by `[raw]`. -/
structure ExpUpdate where
  company : Option String := none
  role : Option String := none
  startDate : Option String := none
  endDate : Option String := none
  description : Option JVal := none
  tech : Option JVal := none
  location : Option String := none
  color : Option String := none
  etype : Option String := none
  achievements : Option JVal := none
  isCurrent : Option Bool := none
  isPublished : Option Bool := none
  icon : Option UploadResult := none
deriving Repr, BEq

/-- The spread `updateData = { ...req.body }` also carries body-supplied
`icon` and `isPublished` keys.  When a file was uploaded, `icon` is
overwritten with `{url: req.iconResult.secure_url, ...}`, where
`secure_url` is a field the upload helper does not return (stored as
`""`); otherwise a body icon goes through the nested-object cast, a
failure of which `expUpdateCastOk` tracks. -/
def mkExpUpdate (jp : String → Option JVal) (b : Body)
    (icon : Option UploadResult) : ExpUpdate :=
  let arrish := fun (v : JVal) =>
    match parseArrayish jp v with
    | some w => w
    | none => JVal.arr [v]
  { company := match bget b "company" with | .undef => none | v => some v.toStr.jsTrim
    role := match bget b "role" with | .undef => none | v => some v.toStr.jsTrim
    startDate := match bget b "startDate" with | .undef => none | v => some v.toStr
    endDate := match bget b "endDate" with | .undef => none | v => some v.toStr
    description := match bget b "description" with | .undef => none | v => some (arrish v)
    tech := match bget b "tech" with | .undef => none | v => some (arrish v)
    location := match bget b "location" with | .undef => none | v => some v.toStr.jsTrim
    color := match bget b "color" with | .undef => none | v => some v.toStr.jsTrim
    etype := match bget b "type" with | .undef => none | v => some v.toStr
    achievements := match bget b "achievements" with | .undef => none | v => some (arrish v)
    isCurrent := match bget b "isCurrent" with
      | .undef => none
      | v => some (v == JVal.str "true" || v == JVal.bool true)
    isPublished := match bget b "isPublished" with
      | .undef => none
      | v => some (castBool v)
    icon := match icon with
      | some r => some { url := "", public_id := r.public_id }
      | none =>
        match bget b "icon" with
        | .undef => none
        | v => castUploadObj v }

/-- Whether the `$set` document of an experience update casts. -/
def expUpdateCastOk (b : Body) (hasUpload : Bool) : Bool :=
  hasUpload ||
    (match bget b "icon" with
     | .undef => true
     | v => (castUploadObj v).isSome)

def applyExpUpdate (d : ExperienceDoc) (u : ExpUpdate) : ExperienceDoc :=
  { d with
    company := u.company.getD d.company
    role := u.role.getD d.role
    startDate := u.startDate.getD d.startDate
    endDate := match u.endDate with | some e => some e | none => d.endDate
    description := u.description.getD d.description
    tech := u.tech.getD d.tech
    location := u.location.getD d.location
    color := u.color.getD d.color
    etype := u.etype.getD d.etype
    achievements := u.achievements.getD d.achievements
    isCurrent := u.isCurrent.getD d.isCurrent
    isPublished := u.isPublished.getD d.isPublished
    icon := match u.icon with | some r => some r | none => d.icon }

/-- The handler of `PUT /api/experiences/:id` (225–308). -/
def expUpdateHandler (jp : String → Option JVal) : Mw (UpCtx × ExpDb) := fun req (c, g) =>
  if c.errors ≠ [] then
    .halt (c, g) { status := 400, success := false, errors := c.errors }
  else
    match parseId (pget req "id") with
    | none => .halt (c, g) { status := 500, success := false, message := "Server error" }
    | some i =>
      match g.experiences.find? (fun d => d.id = i) with
      | none =>
        .halt (c, g) { status := 404, success := false, message := "Experience not found" }
      | some _ =>
        if expUpdateCastOk req.body c.iconResult.isSome then
          let u := mkExpUpdate jp req.body c.iconResult
          .halt (c, { g with experiences := g.experiences.map (fun d =>
                      if d.id = i then applyExpUpdate d u else d) })
            { status := 200, success := true }
        else
          .halt (c, g) { status := 500, success := false, message := "Server error" }

/-- The handler of `DELETE /api/experiences/:id` (313–336). -/
def expDeleteHandler : Mw (UpCtx × ExpDb) := fun req (c, g) =>
  match parseId (pget req "id") with
  | none => .halt (c, g) { status := 500, success := false, message := "Server error" }
  | some i =>
    match g.experiences.find? (fun d => d.id = i) with
    | none =>
      .halt (c, g) { status := 404, success := false, message := "Experience not found" }
    | some _ =>
      .halt (c, { g with experiences := g.experiences.filter (fun d => d.id ≠ i) })
        { status := 200, success := true, message := "Experience deleted successfully" }

def expCreatePipeline (jp : String → Option JVal) : List (Mw (UpCtx × ExpDb)) :=
  [protectMw, uploadIconMw, processIconUploadMw,
   validateMw expCreateValidators, expCreateHandler jp]

def expUpdatePipeline (jp : String → Option JVal) : List (Mw (UpCtx × ExpDb)) :=
  [protectMw, uploadIconMw, processIconUploadMw,
   validateMw expUpdateValidators, expUpdateHandler jp]

def expDeletePipeline : List (Mw (UpCtx × ExpDb)) :=
  [protectMw, expDeleteHandler]

/-! ### Legacy experiences router (the unnamed source file importing
`Experience` with no upload middleware) -/

/-- The validator array of its `POST /` (62–93). -/
def expLegacyCreateValidators (req : Request) : List String :=
  let b := req.body
  vReqLen b "company" 1 100 "Company name is required and cannot exceed 100 characters" ++
  vReqLen b "role" 1 100 "Role is required and cannot exceed 100 characters" ++
  vReqISO b "startDate" "Start date must be a valid date" ++
  vOptISO b "endDate" "End date must be a valid date" ++
  vReqArray b "description" 1 "At least one description point is required" ++
  vOptArray b "tech" 0 "Tech must be an array" ++
  vOptLen b "location" 0 100 "Location cannot exceed 100 characters" ++
  vOptBool b "isCurrent" "isCurrent must be a boolean"

/-- The validator array of its `PUT /:id` (144–179). -/
def expLegacyUpdateValidators (req : Request) : List String :=
  let b := req.body
  vOptLen b "company" 1 100 "Company name cannot exceed 100 characters" ++
  vOptLen b "role" 1 100 "Role cannot exceed 100 characters" ++
  vOptISO b "startDate" "Start date must be a valid date" ++
  vOptISO b "endDate" "End date must be a valid date" ++
  vOptArray b "description" 1 "At least one description point is required" ++
  vOptArray b "tech" 0 "Tech must be an array" ++
  vOptLen b "location" 0 100 "Location cannot exceed 100 characters" ++
  vOptBool b "isCurrent" "isCurrent must be a boolean"

/-- The handler of its `POST /` (94–139): `description` and `tech` go
through a bare `JSON.parse`; a throw is caught by the outer handler
(500, nothing stored). -/
def expLegacyCreateHandler (jp : String → Option JVal) : Mw (UpCtx × ExpDb) :=
  fun req (c, g) =>
  if c.errors ≠ [] then
    .halt (c, g) { status := 400, success := false, errors := c.errors }
  else
    let b := req.body
    let descr := jpJ jp (bget b "description")
    let tech := if (bget b "tech").falsy then some (JVal.arr [])
                else jpJ jp (bget b "tech")
    match descr, tech with
    | some de, some te =>
      let d : ExperienceDoc :=
        { id := g.nextId
          company := (bget b "company").toStr.jsTrim
          role := (bget b "role").toStr.jsTrim
          startDate := (bget b "startDate").toStr
          endDate := if (bget b "endDate").falsy then none
                     else some (bget b "endDate").toStr
          description := de
          tech := te
          location := if (bget b "location").falsy then ""
                      else (bget b "location").toStr.jsTrim
          isCurrent := bget b "isCurrent" == JVal.str "true" }
      .halt (c, { g with experiences := g.experiences ++ [d], nextId := g.nextId + 1 })
        { status := 201, success := true }
    | _, _ =>
      .halt (c, g) { status := 500, success := false, message := "Server error" }

/-- The handler of its `PUT /:id` (180–227): the bare `JSON.parse` calls
throw to the outer catch (500) when they fail. -/
def expLegacyUpdateHandler (jp : String → Option JVal) : Mw (UpCtx × ExpDb) :=
  fun req (c, g) =>
  if c.errors ≠ [] then
    .halt (c, g) { status := 400, success := false, errors := c.errors }
  else
    match parseId (pget req "id") with
    | none => .halt (c, g) { status := 500, success := false, message := "Server error" }
    | some i =>
      match g.experiences.find? (fun d => d.id = i) with
      | none =>
        .halt (c, g) { status := 404, success := false, message := "Experience not found" }
      | some _ =>
        let descr := match bget req.body "description" with
          | .undef => some none
          | v => (jpJ jp v).map some
        let tech := match bget req.body "tech" with
          | .undef => some none
          | v => (jpJ jp v).map some
        match descr, tech with
        | some de, some te =>
          let u : ExpUpdate :=
            { company := match bget req.body "company" with
                | .undef => none | v => some v.toStr.jsTrim
              role := match bget req.body "role" with
                | .undef => none | v => some v.toStr.jsTrim
              startDate := match bget req.body "startDate" with
                | .undef => none | v => some v.toStr
              endDate := match bget req.body "endDate" with
                | .undef => none | v => some v.toStr
              description := de
              tech := te
              location := match bget req.body "location" with
                | .undef => none | v => some v.toStr.jsTrim
              isCurrent := match bget req.body "isCurrent" with
                | .undef => none
                | v => some (v == JVal.str "true")
              isPublished := match bget req.body "isPublished" with
                | .undef => none
                | v => some (castBool v) }
          .halt (c, { g with experiences := g.experiences.map (fun d =>
                      if d.id = i then applyExpUpdate d u else d) })
            { status := 200, success := true }
        | _, _ =>
          .halt (c, g) { status := 500, success := false, message := "Server error" }

/-- The handler of its `DELETE /:id` (232–255). -/
def expLegacyDeleteHandler : Mw (UpCtx × ExpDb) := fun req (c, g) =>
  match parseId (pget req "id") with
  | none => .halt (c, g) { status := 500, success := false, message := "Server error" }
  | some i =>
    match g.experiences.find? (fun d => d.id = i) with
    | none =>
      .halt (c, g) { status := 404, success := false, message := "Experience not found" }
    | some _ =>
      .halt (c, { g with experiences := g.experiences.filter (fun d => d.id ≠ i) })
        { status := 200, success := true, message := "Experience deleted successfully" }

def expLegacyCreatePipeline (jp : String → Option JVal) : List (Mw (UpCtx × ExpDb)) :=
  [protectMw, validateMw expLegacyCreateValidators, expLegacyCreateHandler jp]

def expLegacyUpdatePipeline (jp : String → Option JVal) : List (Mw (UpCtx × ExpDb)) :=
  [protectMw, validateMw expLegacyUpdateValidators, expLegacyUpdateHandler jp]

def expLegacyDeletePipeline : List (Mw (UpCtx × ExpDb)) :=
  [protectMw, expLegacyDeleteHandler]

/-! ### Projects router (`src/routes/projects.js`) -/

structure ProjDb where
  projects : List ProjectDoc := []
  nextId : Nat := 0
  now : Nat := 0
  deleteAttempts : List String := []
  mediaDeleted : List String := []
  deleteFails : String → Bool := fun _ => false

/-- `deleteFromCloudinary` wrapped in the project handlers' `try/catch`. -/
def projTryDestroy (g : ProjDb) (pid : String) : ProjDb :=
  let g' := { g with deleteAttempts := g.deleteAttempts ++ [pid] }
  if g.deleteFails pid then g'
  else { g' with mediaDeleted := g'.mediaDeleted ++ [pid] }

/-- `new Date().getFullYear()` at the time the validators are built. -/
def currentYear : Int := 2025

def projectTypes : List String := ["mobile", "web", "desktop", "other"]

/-- The custom techStack/features validator of `POST /api/projects`
(190–212): an array passes outright; otherwise the value must
`JSON.parse` to a non-empty array, or fall back to a non-empty cleaned
comma list when it is a string that fails to parse. -/
def customListValidatorCreate (jp : String → Option JVal) (b : Body)
    (k msg : String) : List String :=
  match bget b k with
  | .arr _ => []
  | v =>
    match jpJ jp v with
    | some (.arr xs) => if 1 ≤ xs.length then [] else [msg]
    | some _ => [msg]
    | none =>
      match v with
      | .str s => if 1 ≤ (cleanSplit s).length then [] else [msg]
      | _ => [msg]

/-- The custom techStack/features validator of `PUT /api/projects/:id`
(392–415): optional, falsy passes, an array must be non-empty. -/
def customListValidatorUpdate (jp : String → Option JVal) (b : Body)
    (k msg : String) : List String :=
  match bget b k with
  | .undef => []
  | v =>
    if v.falsy then []
    else match v with
      | .arr xs => if 1 ≤ xs.length then [] else [msg]
      | _ =>
        match jpJ jp v with
        | some (.arr xs) => if 1 ≤ xs.length then [] else [msg]
        | some _ => [msg]
        | none =>
          match v with
          | .str s => if 1 ≤ (cleanSplit s).length then [] else [msg]
          | _ => [msg]

/-- The validator array of `POST /api/projects` (181–247). -/
def projCreateValidators (jp : String → Option JVal) (req : Request) : List String :=
  let b := req.body
  vReqLen b "title" 1 100 "Title is required and cannot exceed 100 characters" ++
  vReqLen b "description" 1 1000
    "Description is required and cannot exceed 1000 characters" ++
  customListValidatorCreate jp b "techStack" "At least one technology is required" ++
  vReqLen b "role" 1 100 "Role is required and cannot exceed 100 characters" ++
  vReqInt b "year" 2000 (some (currentYear + 1)) "Year must be between 2000 and current year" ++
  vReqIn b "type" projectTypes "Type must be mobile, web, desktop, or other" ++
  customListValidatorCreate jp b "features" "At least one feature is required"

/-- The validator array of `PUT /api/projects/:id` (380–455). -/
def projUpdateValidators (jp : String → Option JVal) (req : Request) : List String :=
  let b := req.body
  vOptLen b "title" 1 100 "Title cannot exceed 100 characters" ++
  vOptLen b "description" 1 1000 "Description cannot exceed 1000 characters" ++
  customListValidatorUpdate jp b "techStack" "At least one technology is required" ++
  vOptLen b "role" 1 100 "Role cannot exceed 100 characters" ++
  vOptInt b "year" 2000 (some (currentYear + 1)) "Year must be between 2000 and current year" ++
  vOptIn b "type" projectTypes "Type must be mobile, web, desktop, or other" ++
  customListValidatorUpdate jp b "features" "At least one feature is required"

/-- The `stats` processing of `router.post('/')` (313–325): objects (and
arrays, which also have `typeof 'object'`) pass through, other truthy
values are `JSON.parse`d with `{downloads: 0, rating: 0, users: 0}` as
the fallback. -/
def parseStatsField (jp : String → Option JVal) (v : JVal) : JVal :=
  if v.falsy then .obj []
  else match v with
    | .obj kvs => .obj kvs
    | .arr xs => .arr xs
    | w =>
      match jpJ jp w with
      | some x => x
      | none => .obj [("downloads", .num 0), ("rating", .num 0), ("users", .num 0)]

/-- The `caseStudy` processing of `router.post('/')` (327–340), fallback
`{challenges: []}`. -/
def parseCaseStudyField (jp : String → Option JVal) (v : JVal) : JVal :=
  if v.falsy then .obj []
  else match v with
    | .obj kvs => .obj kvs
    | .arr xs => .arr xs
    | w =>
      match jpJ jp w with
      | some x => x
      | none => .obj [("challenges", .arr [])]

/-- The handler of `POST /api/projects` (248–375).  `Project.create`
runs the `pre('save')` hook of `src/models/Project.js` 254–266, which
slugifies the (new, hence modified) title. -/
def projCreateHandler (jp : String → Option JVal) : Mw (UpCtx × ProjDb) :=
  fun req (c, g) =>
  if c.errors ≠ [] then
    .halt (c, g) { status := 400, success := false, errors := c.errors }
  else
    let b := req.body
    let title := (bget b "title").toStr.jsTrim
    let d : ProjectDoc :=
      { id := g.nextId
        title := title
        slug := slugify title
        description := (bget b "description").toStr.jsTrim
        techStack := simplifyData jp (bget b "techStack")
        role := (bget b "role").toStr.jsTrim
        year := parseIntJ (bget b "year")
        ptype := (bget b "type").toStr
        features := simplifyData jp (bget b "features")
        links := parseLinksField jp (bget b "links")
        stats := parseStatsField jp (bget b "stats")
        caseStudy := parseCaseStudyField jp (bget b "caseStudy")
        isFeatured := bget b "isFeatured" == JVal.str "true"
        cover := c.cloudinaryResult
        createdAt := g.now }
    .halt (c, { g with projects := g.projects ++ [d]
                       nextId := g.nextId + 1
                       now := g.now + 1 })
      { status := 201, success := true }

/-- One converted techStack item of the `PUT /:id` comma-list fallback
(495–503). -/
def mkTechItemFull (item : String) : JVal :=
  .obj [("key", .str (toKey item)),
        ("name", .str item),
        ("icon", .str ("devicon-" ++ toKey item ++ "-plain")),
        ("color", .str "#4285F4"),
        ("category", .str "other"),
        ("version", .str "1.x"),
        ("isActive", .bool true)]

/-- One converted features item of the `PUT /:id` comma-list fallback
(526–534). -/
def mkFeatureItemFull (item : String) : JVal :=
  .obj [("key", .str (toKey item)),
        ("title", .str item),
        ("description", .str item),
        ("icon", .str "check"),
        ("category", .str "core"),
        ("isHighlighted", .bool false),
        ("isActive", .bool true)]

/-- The `techStack` processing of `PUT /:id` (479–507). -/
def parseTechUpdate (jp : String → Option JVal) (v : JVal) : JVal :=
  match v with
  | .arr xs => .arr xs
  | w =>
    match jpJ jp w with
    | some x => x
    | none =>
      match w with
      | .str s => .arr ((cleanSplit s).map mkTechItemFull)
      | _ => .arr []

/-- The `features` processing of `PUT /:id` (510–538). -/
def parseFeaturesUpdate (jp : String → Option JVal) (v : JVal) : JVal :=
  match v with
  | .arr xs => .arr xs
  | w =>
    match jpJ jp w with
    | some x => x
    | none =>
      match w with
      | .str s => .arr ((cleanSplit s).map mkFeatureItemFull)
      | _ => .arr []

/-- The `links` processing of `PUT /:id` (541–561): on a parse failure
the catch only logs, so the spread's raw value stays in `updateData`. -/
def parseLinksUpdate (jp : String → Option JVal) (v : JVal) : JVal :=
  match v with
  | .arr xs => .arr xs
  | .obj kvs => convertLegacyLinks kvs
  | w =>
    match jpJ jp w with
    | some x => x
    | none => w

/-- The `stats`/`caseStudy` processing of `PUT /:id` (563–577). -/
def parseObjishUpdate (jp : String → Option JVal) (v : JVal) : JVal :=
  match v with
  | .obj kvs => .obj kvs
  | .arr xs => .arr xs
  | w =>
    match jpJ jp w with
    | some x => x
    | none => w

/-- The `$set` document built by `PUT /api/projects/:id` (476–597): the
spread of `req.body` with the normalized sub-document fields.  The
`slug` path is never part of it. -/
structure ProjUpdate where
  title : Option String := none
  description : Option String := none
  techStack : Option JVal := none
  features : Option JVal := none
  links : Option JVal := none
  stats : Option JVal := none
  caseStudy : Option JVal := none
  role : Option String := none
  year : Option Int := none
  ptype : Option String := none
  isFeatured : Option Bool := none
  isPublished : Option Bool := none
  slug : Option String := none
  gallery : Option (List GalleryImage) := none
  cover : Option UploadResult := none
deriving Repr, BEq

/-- The spread `updateData = { ...req.body }` also carries body-supplied
`slug`, `gallery` and `cover` keys: `slug` goes through the `String` cast
and the schema's `lowercase: true` setter, `gallery` and `cover` through
the sub-document casts; `cover` is overwritten when a file was uploaded.
A cast failure throws at `findByIdAndUpdate` (500), which
`projUpdateCastOk` tracks. -/
def mkProjUpdate (jp : String → Option JVal) (b : Body)
    (cover : Option UploadResult) : ProjUpdate :=
  { title := match bget b "title" with | .undef => none | v => some v.toStr.jsTrim
    description := match bget b "description" with | .undef => none | v => some v.toStr.jsTrim
    techStack := match bget b "techStack" with
      | .undef => none
      | v => if v.falsy then some v else some (parseTechUpdate jp v)
    features := match bget b "features" with
      | .undef => none
      | v => if v.falsy then some v else some (parseFeaturesUpdate jp v)
    links := match bget b "links" with
      | .undef => none
      | v => if v.falsy then some v else some (parseLinksUpdate jp v)
    stats := match bget b "stats" with
      | .undef => none
      | v => if v.falsy then some v else some (parseObjishUpdate jp v)
    caseStudy := match bget b "caseStudy" with
      | .undef => none
      | v => if v.falsy then some v else some (parseObjishUpdate jp v)
    role := match bget b "role" with | .undef => none | v => some v.toStr.jsTrim
    year := match bget b "year" with | .undef => none | v => some (parseIntJ v)
    ptype := match bget b "type" with | .undef => none | v => some v.toStr
    isFeatured := match bget b "isFeatured" with
      | .undef => none
      | v => some (v == JVal.str "true")
    isPublished := match bget b "isPublished" with
      | .undef => none
      | v => some (castBool v)
    slug := match bget b "slug" with
      | .undef => none
      | v => (castStrField v).map lowerStr
    gallery := match bget b "gallery" with
      | .undef => none
      | v => castGallery v
    cover := match cover with
      | some r => some r
      | none =>
        match bget b "cover" with
        | .undef => none
        | v => castUploadObj v }

/-- Whether the `$set` document of a project update casts; when it does
not, `findByIdAndUpdate` throws and the handler answers 500. -/
def projUpdateCastOk (b : Body) (hasUpload : Bool) : Bool :=
  (match bget b "slug" with
   | .undef => true
   | v => (castStrField v).isSome) &&
  (match bget b "gallery" with
   | .undef => true
   | v => (castGallery v).isSome) &&
  (hasUpload ||
    (match bget b "cover" with
     | .undef => true
     | v => (castUploadObj v).isSome))

/-- `findByIdAndUpdate` `$set` semantics for projects: fields present in
the update document are set, the rest keep their stored values; no save
hook runs. -/
def applyProjUpdate (d : ProjectDoc) (u : ProjUpdate) : ProjectDoc :=
  { d with
    title := u.title.getD d.title
    description := u.description.getD d.description
    techStack := u.techStack.getD d.techStack
    features := u.features.getD d.features
    links := u.links.getD d.links
    stats := u.stats.getD d.stats
    caseStudy := u.caseStudy.getD d.caseStudy
    role := u.role.getD d.role
    year := u.year.getD d.year
    ptype := u.ptype.getD d.ptype
    isFeatured := u.isFeatured.getD d.isFeatured
    isPublished := u.isPublished.getD d.isPublished
    slug := u.slug.getD d.slug
    gallery := u.gallery.getD d.gallery
    cover := match u.cover with | some r => some r | none => d.cover }

/-- The handler of `PUT /api/projects/:id` (456–617). -/
def projUpdateHandler (jp : String → Option JVal) : Mw (UpCtx × ProjDb) :=
  fun req (c, g) =>
  if c.errors ≠ [] then
    .halt (c, g) { status := 400, success := false, errors := c.errors }
  else
    match parseId (pget req "id") with
    | none => .halt (c, g) { status := 500, success := false, message := "Server error" }
    | some i =>
      match g.projects.find? (fun d => d.id = i) with
      | none =>
        .halt (c, g) { status := 404, success := false, message := "Project not found" }
      | some proj =>
        let g₁ :=
          match c.cloudinaryResult with
          | some _ =>
            match proj.cover with
            | some cov => if cov.public_id ≠ "" then projTryDestroy g cov.public_id else g
            | none => g
          | none => g
        if projUpdateCastOk req.body c.cloudinaryResult.isSome then
          let u := mkProjUpdate jp req.body c.cloudinaryResult
          .halt (c, { g₁ with projects := g₁.projects.map (fun d =>
                      if d.id = i then applyProjUpdate d u else d) })
            { status := 200, success := true }
        else
          .halt (c, g₁) { status := 500, success := false, message := "Server error" }

/-- The handler of `DELETE /api/projects/:id` (622–665): best-effort
destroy of the cover and every gallery image, then the document delete. -/
def projDeleteHandler : Mw (UpCtx × ProjDb) := fun req (c, g) =>
  match parseId (pget req "id") with
  | none => .halt (c, g) { status := 500, success := false, message := "Server error" }
  | some i =>
    match g.projects.find? (fun d => d.id = i) with
    | none =>
      .halt (c, g) { status := 404, success := false, message := "Project not found" }
    | some proj =>
      let g₁ :=
        match proj.cover with
        | some cov => if cov.public_id ≠ "" then projTryDestroy g cov.public_id else g
        | none => g
      let g₂ := proj.gallery.foldl (fun acc img =>
        if img.public_id ≠ "" then projTryDestroy acc img.public_id else acc) g₁
      .halt (c, { g₂ with projects := g₂.projects.filter (fun d => d.id ≠ i) })
        { status := 200, success := true, message := "Project deleted successfully" }

/-- The handler of `POST /api/projects/:id/gallery` (670–711). -/
def projGalleryAddHandler : Mw (UpCtx × ProjDb) := fun req (c, g) =>
  match parseId (pget req "id") with
  | none => .halt (c, g) { status := 500, success := false, message := "Server error" }
  | some i =>
    match g.projects.find? (fun d => d.id = i) with
    | none =>
      .halt (c, g) { status := 404, success := false, message := "Project not found" }
    | some _ =>
      if c.cloudinaryResults.isEmpty then
        .halt (c, g) { status := 400, success := false, message := "No images uploaded" }
      else
        let newImages := c.cloudinaryResults.enum.map (fun ri =>
          ({ gid := g.nextId + ri.1, url := ri.2.url,
             public_id := ri.2.public_id, caption := "" } : GalleryImage))
        .halt (c, { g with
                    projects := g.projects.map (fun d =>
                      if d.id = i then { d with gallery := d.gallery ++ newImages } else d)
                    nextId := g.nextId + c.cloudinaryResults.length })
          { status := 200, success := true }

/-- The validator array of `PUT /:projectId/gallery/:imageId` (716–721). -/
def captionValidators (req : Request) : List String :=
  vOptLen req.body "caption" 0 200 "Caption cannot exceed 200 characters"

/-- The handler of `PUT /:projectId/gallery/:imageId` (722–760).  It
never consults `validationResult`: the caption (already trimmed by the
`.trim()` sanitizer) is written and the document re-saved, so a caption
exceeding the schema's 200-character maxlength makes `project.save()`
throw (500, nothing persisted) instead of a 400.  `pre('save')` leaves
`slug` alone because the title path is unmodified. -/
def projCaptionHandler : Mw (UpCtx × ProjDb) := fun req (c, g) =>
  match parseId (pget req "projectId") with
  | none => .halt (c, g) { status := 500, success := false, message := "Server error" }
  | some i =>
    match g.projects.find? (fun d => d.id = i) with
    | none =>
      .halt (c, g) { status := 404, success := false, message := "Project not found" }
    | some proj =>
      match parseId (pget req "imageId") with
      | none =>
        .halt (c, g) { status := 404, success := false, message := "Gallery image not found" }
      | some imgId =>
        if proj.gallery.all (fun img => img.gid ≠ imgId) then
          .halt (c, g) { status := 404, success := false, message := "Gallery image not found" }
        else
          let cap := if (bget req.body "caption").falsy then ""
                     else (bget req.body "caption").toStr.jsTrim
          if cap.length ≤ 200 then
            .halt (c, { g with projects := g.projects.map (fun d =>
                        if d.id = i then
                          { d with gallery := d.gallery.map (fun img =>
                              if img.gid = imgId then { img with caption := cap } else img) }
                        else d) })
              { status := 200, success := true, message := "Image caption updated successfully" }
          else
            .halt (c, g) { status := 500, success := false, message := "Server error" }

/-- The validator array of `PUT /:id/gallery/reorder` (765–768). -/
def reorderValidators (req : Request) : List String :=
  vReqArray req.body "imageIds" 0 "Image IDs must be an array"

/-- `for (const imageId of imageIds)` over an array body: the new
gallery keeps exactly the listed ids (in that order) that exist. -/
def reorderArrGallery (gallery : List GalleryImage) (ids : List JVal) :
    List GalleryImage :=
  ids.foldl (fun acc v =>
    match parseId v.toStr with
    | some imgId =>
      match gallery.find? (fun img => img.gid = imgId) with
      | some img => acc ++ [img]
      | none => acc
    | none => acc) []

/-- `for (const imageId of imageIds)` over a string body iterates its
characters; each one-character "id" is looked up in the gallery (and
typically matches nothing, leaving the new gallery empty). -/
def reorderStrGallery (gallery : List GalleryImage) (s : String) :
    List GalleryImage :=
  s.toList.foldl (fun acc ch =>
    match parseId (String.mk [ch]) with
    | some imgId =>
      match gallery.find? (fun img => img.gid = imgId) with
      | some img => acc ++ [img]
      | none => acc
    | none => acc) []

/-- The handler of `PUT /:id/gallery/reorder` (769–807).  It never
consults `validationResult`: an array body reorders as listed, a string
body is iterated character-wise by `for...of` (overwriting the gallery
with its — typically empty — matches) and still answers 200, and a
non-iterable body throws a `TypeError` (500). -/
def projReorderHandler : Mw (UpCtx × ProjDb) := fun req (c, g) =>
  match parseId (pget req "id") with
  | none => .halt (c, g) { status := 500, success := false, message := "Server error" }
  | some i =>
    match g.projects.find? (fun d => d.id = i) with
    | none =>
      .halt (c, g) { status := 404, success := false, message := "Project not found" }
    | some proj =>
      match bget req.body "imageIds" with
      | .arr ids =>
        .halt (c, { g with projects := g.projects.map (fun d =>
                    if d.id = i then { d with gallery := reorderArrGallery proj.gallery ids }
                    else d) })
          { status := 200, success := true, message := "Gallery reordered successfully" }
      | .str s =>
        .halt (c, { g with projects := g.projects.map (fun d =>
                    if d.id = i then { d with gallery := reorderStrGallery proj.gallery s }
                    else d) })
          { status := 200, success := true, message := "Gallery reordered successfully" }
      | _ =>
        .halt (c, g) { status := 500, success := false, message := "Server error" }

/-- The handler of `DELETE /:projectId/gallery/:imageId` (812–855). -/
def projGalleryDeleteHandler : Mw (UpCtx × ProjDb) := fun req (c, g) =>
  match parseId (pget req "projectId") with
  | none => .halt (c, g) { status := 500, success := false, message := "Server error" }
  | some i =>
    match g.projects.find? (fun d => d.id = i) with
    | none =>
      .halt (c, g) { status := 404, success := false, message := "Project not found" }
    | some proj =>
      match parseId (pget req "imageId") with
      | none =>
        .halt (c, g) { status := 404, success := false, message := "Gallery image not found" }
      | some imgId =>
        match proj.gallery.find? (fun img => img.gid = imgId) with
        | none =>
          .halt (c, g) { status := 404, success := false, message := "Gallery image not found" }
        | some img =>
          let g₁ := if img.public_id ≠ "" then projTryDestroy g img.public_id else g
          .halt (c, { g₁ with projects := g₁.projects.map (fun d =>
                      if d.id = i then
                        { d with gallery := d.gallery.filter (fun im => im.gid ≠ imgId) }
                      else d) })
            { status := 200, success := true, message := "Gallery image deleted successfully" }

def projCreatePipeline (jp : String → Option JVal) : List (Mw (UpCtx × ProjDb)) :=
  [protectMw, validateMw (projCreateValidators jp), projCreateHandler jp]

def projUpdatePipeline (jp : String → Option JVal) : List (Mw (UpCtx × ProjDb)) :=
  [protectMw, uploadImageMw, processImageUploadMw,
   validateMw (projUpdateValidators jp), projUpdateHandler jp]

def projDeletePipeline : List (Mw (UpCtx × ProjDb)) :=
  [protectMw, projDeleteHandler]

def projGalleryAddPipeline : List (Mw (UpCtx × ProjDb)) :=
  [protectMw, uploadImagesMw, processImagesUploadMw, projGalleryAddHandler]

def projCaptionPipeline : List (Mw (UpCtx × ProjDb)) :=
  [protectMw, validateMw captionValidators, projCaptionHandler]

def projReorderPipeline : List (Mw (UpCtx × ProjDb)) :=
  [protectMw, validateMw reorderValidators, projReorderHandler]

def projGalleryDeletePipeline : List (Mw (UpCtx × ProjDb)) :=
  [protectMw, projGalleryDeleteHandler]

/-! ### Users router (`src/routes/users.js`) -/

structure UsersDb where
  users : List UserDoc := []
  deleteAttempts : List String := []
  mediaDeleted : List String := []
  deleteFails : String → Bool := fun _ => false

def userTryDestroy (g : UsersDb) (pid : String) : UsersDb :=
  let g' := { g with deleteAttempts := g.deleteAttempts ++ [pid] }
  if g.deleteFails pid then g'
  else { g' with mediaDeleted := g'.mediaDeleted ++ [pid] }

/-- validator.js `isEmail`, simplified to the shape the claims need. -/
def isEmailm (s : String) : Bool :=
  match jsSplit '@' s with
  | [l, r] => l ≠ "" && r ≠ ""
  | _ => false

/-- The validator array of `PUT /api/users/:id` (365–390). -/
def userUpdateValidators (req : Request) : List String :=
  let b := req.body
  vOptLen b "name" 2 50 "Name must be between 2 and 50 characters" ++
  (match bget b "email" with
   | .undef => []
   | v => if isEmailm v.toStr then [] else ["Please provide a valid email"]) ++
  vOptLen b "phone" 0 20 "Phone number cannot be more than 20 characters" ++
  vOptLen b "bio" 0 500 "Bio cannot be more than 500 characters" ++
  vOptLen b "location" 0 100 "Location cannot be more than 100 characters"

/-- The handler of `PUT /api/users/:id` (391–456). -/
def userUpdateHandler : Mw (UpCtx × UsersDb) := fun req (c, g) =>
  if c.errors ≠ [] then
    .halt (c, g) { status := 400, success := false, errors := c.errors }
  else
    match parseId (pget req "id") with
    | none => .halt (c, g) { status := 500, success := false, message := "Server error" }
    | some i =>
      match g.users.find? (fun d => d.id = i) with
      | none => .halt (c, g) { status := 404, success := false, message := "User not found" }
      | some user =>
        if user.id ≠ req.userId then
          .halt (c, g)
            { status := 401, success := false, message := "Not authorized to update this profile" }
        else
          let b := req.body
          let email := bget b "email"
          let dup :=
            match email with
            | .undef => false
            | v =>
              v.toStr ≠ user.email ∧
              (g.users.any (fun d => d.email = v.toStr))
          if dup then
            .halt (c, g) { status := 400, success := false, message := "Email already exists" }
          else
            let upd := fun (d : UserDoc) =>
              { d with
                name := if (bget b "name").falsy then d.name else (bget b "name").toStr.jsTrim
                email := if email.falsy then d.email else email.toStr
                phone := match bget b "phone" with | .undef => d.phone | v => v.toStr.jsTrim
                bio := match bget b "bio" with | .undef => d.bio | v => v.toStr.jsTrim
                location := match bget b "location" with
                  | .undef => d.location | v => v.toStr.jsTrim }
            .halt (c, { g with users := g.users.map (fun d =>
                        if d.id = i then upd d else d) })
              { status := 200, success := true }

/-- The handler of `POST /api/users/upload-avatar` (461–508). -/
def userAvatarHandler : Mw (UpCtx × UsersDb) := fun req (c, g) =>
  match c.cloudinaryResult with
  | none => .halt (c, g) { status := 400, success := false, message := "No image uploaded" }
  | some r =>
    match g.users.find? (fun d => d.id = req.userId) with
    | none => .halt (c, g) { status := 404, success := false, message := "User not found" }
    | some user =>
      let g₁ := if user.profilePicture.public_id ≠ ""
                then userTryDestroy g user.profilePicture.public_id else g
      .halt (c, { g₁ with users := g₁.users.map (fun d =>
                  if d.id = req.userId then { d with profilePicture := r } else d) })
        { status := 200, success := true }

/-- The handler of `DELETE /api/users/delete-avatar` (513–551). -/
def userAvatarDeleteHandler : Mw (UpCtx × UsersDb) := fun req (c, g) =>
  match g.users.find? (fun d => d.id = req.userId) with
  | none => .halt (c, g) { status := 404, success := false, message := "User not found" }
  | some user =>
    let g₁ := if user.profilePicture.public_id ≠ ""
              then userTryDestroy g user.profilePicture.public_id else g
    .halt (c, { g₁ with users := g₁.users.map (fun d =>
                if d.id = req.userId
                then { d with profilePicture := { url := "", public_id := "" } } else d) })
      { status := 200, success := true, message := "Avatar deleted successfully" }

def userUpdatePipeline : List (Mw (UpCtx × UsersDb)) :=
  [protectMw, validateMw userUpdateValidators, userUpdateHandler]

def userAvatarPipeline : List (Mw (UpCtx × UsersDb)) :=
  [protectMw, uploadImageMw, processImageUploadMw, userAvatarHandler]

def userAvatarDeletePipeline : List (Mw (UpCtx × UsersDb)) :=
  [protectMw, userAvatarDeleteHandler]

/-! ### Public GET handlers -/

/-- A case-insensitive `$regex` containment test (patterns without
regex metacharacters). -/
def containsCI (hay needle : String) : Bool :=
  decide (needle.toList.map Char.toLower <:+: hay.toList.map Char.toLower)

/-- `query['techStack.name'] = { $regex: tech, $options: 'i' }`. -/
def techNameMatch (ts : JVal) (pat : String) : Bool :=
  match ts with
  | .arr xs =>
    xs.any (fun x =>
      match x with
      | .obj kvs =>
        match bget kvs "name" with
        | .str n => containsCI n pat
        | _ => false
      | _ => false)
  | _ => false

/-- The query string of `GET /api/projects` (42–50), with its defaults
`page = 1`, `limit = 10`. -/
structure ProjListQuery where
  page : Nat := 1
  limit : Nat := 10
  qtype : Option String := none
  year : Option Int := none
  tech : Option String := none
  featured : Bool := false
  search : Option String := none

/-- The Mongo query built in `GET /api/projects` (52–64). -/
def projListQueryPred (q : ProjListQuery) (d : ProjectDoc) : Bool :=
  d.isPublished &&
  (match q.qtype with | some t => d.ptype == t | none => true) &&
  (match q.year with | some y => d.year == y | none => true) &&
  (match q.tech with | some t => techNameMatch d.techStack t | none => true) &&
  (!q.featured || d.isFeatured) &&
  (match q.search with
   | some s => containsCI d.title s || containsCI d.description s
   | none => true)

/-- `.sort({ createdAt: -1 })`. -/
def sortByCreatedDesc (l : List ProjectDoc) : List ProjectDoc :=
  List.insertionSort (fun a b => b.createdAt ≤ a.createdAt) l

structure Pagination where
  currentPage : Nat
  totalPages : Nat
  totalItems : Nat
  itemsPerPage : Nat
deriving Repr, BEq, DecidableEq

structure ProjListResp where
  data : List ProjectDoc
  pagination : Pagination
deriving Repr

/-- The handler of `GET /api/projects` (40–93): filter, sort by creation
time descending, skip `(page-1)*limit`, take `limit`, and report
`Math.ceil(total/limit)` total pages. -/
def getProjectsHandler (g : ProjDb) (q : ProjListQuery) : ProjListResp :=
  let filtered := g.projects.filter (projListQueryPred q)
  let sorted := sortByCreatedDesc filtered
  let total := filtered.length
  { data := (sorted.drop ((q.page - 1) * q.limit)).take q.limit
    pagination :=
      { currentPage := q.page
        totalPages := (total + q.limit - 1) / q.limit
        totalItems := total
        itemsPerPage := q.limit } }

/-- The handler of `GET /api/projects/featured` (98–116). -/
def getFeaturedHandler (g : ProjDb) : List ProjectDoc :=
  (sortByCreatedDesc (g.projects.filter (fun d => d.isFeatured && d.isPublished))).take 6

/-- The handler of `GET /api/projects/id/:id` (121–146). -/
def getProjectByIdHandler (g : ProjDb) (i : Nat) : Response × Option ProjectDoc :=
  match g.projects.find? (fun d => d.id = i ∧ d.isPublished) with
  | none => ({ status := 404, success := false, message := "Project not found" }, none)
  | some d => ({ status := 200, success := true }, some d)

/-- The handler of `GET /api/projects/:slug` (151–176). -/
def getProjectBySlugHandler (g : ProjDb) (s : String) : Response × Option ProjectDoc :=
  match g.projects.find? (fun d => d.slug = s ∧ d.isPublished) with
  | none => ({ status := 404, success := false, message := "Project not found" }, none)
  | some d => ({ status := 200, success := true }, some d)

/-- The handler of `GET /api/experiences` (`src/routes/experiences.js`
14–30). -/
def getExperiencesHandler (g : ExpDb) : List ExperienceDoc :=
  List.insertionSort (fun a b => strLeB b.startDate a.startDate = true)
    (g.experiences.filter (fun d => d.isPublished))

/-- The handler of `GET /api/experiences/:id` (35–60). -/
def getExperienceByIdHandler (g : ExpDb) (i : Nat) : Response × Option ExperienceDoc :=
  match g.experiences.find? (fun d => d.id = i ∧ d.isPublished) with
  | none => ({ status := 404, success := false, message := "Experience not found" }, none)
  | some d => ({ status := 200, success := true }, some d)

/-- `.sort({ category: 1, order: 1 })`. -/
def skillSortLe (a b : SkillDoc) : Bool :=
  strLtB a.category b.category ||
  (a.category == b.category && decide (a.order ≤ b.order))

/-- `.sort({ order: 1, level: -1 })`. -/
def skillCatSortLe (a b : SkillDoc) : Bool :=
  decide (a.order < b.order) ||
  (a.order == b.order && decide (b.level ≤ a.level))

/-- `.sort({ date: -1, order: 1 })`. -/
def certSortLe (a b : CertDoc) : Bool :=
  strLtB b.date a.date || (a.date == b.date && decide (a.order ≤ b.order))

/-- The `reduce` grouping of `GET /api/skills` (`src/routes/skills.js`
17–23). -/
def groupByCategory (skills : List SkillDoc) : List (String × List SkillDoc) :=
  skills.foldl (fun acc sk =>
    if acc.any (fun p => p.1 = sk.category) then
      acc.map (fun p => if p.1 = sk.category then (p.1, p.2 ++ [sk]) else p)
    else acc ++ [(sk.category, [sk])]) []

/-- The handler of `GET /api/skills` (11–36). -/
def getSkillsHandler (g : SkillsDb) : List (String × List SkillDoc) :=
  groupByCategory (List.insertionSort (fun a b => skillSortLe a b = true)
    (g.skills.filter (fun d => d.isPublished)))

/-- The handler of `GET /api/skills/category/:category` (41–59). -/
def getSkillsByCategoryHandler (g : SkillsDb) (cat : String) : List SkillDoc :=
  List.insertionSort (fun a b => skillCatSortLe a b = true)
    (g.skills.filter (fun d => d.category == cat && d.isPublished))

/-- The handler of `GET /api/skills/:id` (64–89). -/
def getSkillByIdHandler (g : SkillsDb) (i : Nat) : Response × Option SkillDoc :=
  match g.skills.find? (fun d => d.id = i ∧ d.isPublished) with
  | none => ({ status := 404, success := false, message := "Skill not found" }, none)
  | some d => ({ status := 200, success := true }, some d)

/-- The handler of `GET /api/certifications`
(`src/routes/certifications.js` 13–29). -/
def getCertsHandler (g : CertsDb) : List CertDoc :=
  List.insertionSort (fun a b => certSortLe a b = true)
    (g.certs.filter (fun d => d.isPublished))

/-- The handler of `GET /api/certifications/:id` (34–59). -/
def getCertByIdHandler (g : CertsDb) (i : Nat) : Response × Option CertDoc :=
  match g.certs.find? (fun d => d.id = i ∧ d.isPublished) with
  | none => ({ status := 404, success := false, message := "Certification not found" }, none)
  | some d => ({ status := 200, success := true }, some d)

/-- The handler of `GET /api/socials` (`src/routes/socials.js` 11–27):
only active links. -/
def getSocialsHandler (g : SocialsDb) : List SocialDoc :=
  List.insertionSort (fun a b => a.order ≤ b.order)
    (g.socials.filter (fun d => d.isActive))

/-- The handler of `GET /api/socials/:id` (32–57). -/
def getSocialByIdHandler (g : SocialsDb) (i : Nat) : Response × Option SocialDoc :=
  match g.socials.find? (fun d => d.id = i ∧ d.isActive) with
  | none => ({ status := 404, success := false, message := "Social link not found" }, none)
  | some d => ({ status := 200, success := true }, some d)

/-! ### Pipeline step lemmas -/

/-- A `JSON.parse` stand-in for concrete runs: parses the few literals
the witnesses use and throws on everything else. -/
def jp0 : String → Option JVal := fun s =>
  if s = "[]" then some (.arr [])
  else if s = "5" then some (.num 5)
  else none

theorem runPipeline_protect_invalid {σ : Type} (rest : List (Mw σ)) (req : Request)
    (s : σ) (h : req.validToken = false) :
    runPipeline (protectMw :: rest) req s = (s, some unauthorizedResp) := by
  simp [runPipeline, protectMw, h]

theorem runPipeline_protect_valid {σ : Type} (rest : List (Mw σ)) (req : Request)
    (s : σ) (h : req.validToken = true) :
    runPipeline (protectMw :: rest) req s = runPipeline rest req s := by
  simp [runPipeline, protectMw, h]

theorem runPipeline_validate {γ : Type} (v : Request → List String)
    (rest : List (Mw (UpCtx × γ))) (req : Request) (c : UpCtx) (g : γ) :
    runPipeline (validateMw v :: rest) req (c, g) =
      runPipeline rest req ({ c with errors := c.errors ++ v req }, g) := by
  simp [runPipeline, validateMw]

theorem runPipeline_uploadLogo {σ : Type} (rest : List (Mw σ)) (req : Request) (s : σ) :
    runPipeline (uploadLogoMw :: rest) req s = runPipeline rest req s := by
  simp [runPipeline, uploadLogoMw]

theorem runPipeline_uploadImage {σ : Type} (rest : List (Mw σ)) (req : Request) (s : σ) :
    runPipeline (uploadImageMw :: rest) req s = runPipeline rest req s := by
  simp [runPipeline, uploadImageMw]

theorem runPipeline_uploadIcon {σ : Type} (rest : List (Mw σ)) (req : Request) (s : σ) :
    runPipeline (uploadIconMw :: rest) req s = runPipeline rest req s := by
  simp [runPipeline, uploadIconMw]

/-- The request context after `processImageUpload` ran. -/
def upCtxAfterImage (req : Request) (c : UpCtx) : UpCtx :=
  match req.file with
  | none => c
  | some f =>
    let r := uploadToCloudinary f "portfolio"
    { c with cloudinaryResult := some r, uploads := c.uploads ++ [r.public_id] }

theorem runPipeline_processImage {γ : Type} (rest : List (Mw (UpCtx × γ)))
    (req : Request) (c : UpCtx) (g : γ) :
    runPipeline (processImageUploadMw :: rest) req (c, g) =
      runPipeline rest req (upCtxAfterImage req c, g) := by
  cases hf : req.file <;>
    simp [runPipeline, processImageUploadMw, upCtxAfterImage, hf]

/-- The request context after `processIconUpload` ran. -/
def upCtxAfterIcon (req : Request) (c : UpCtx) : UpCtx :=
  match req.file with
  | none => c
  | some f =>
    let r := uploadToCloudinary f "portfolio/icons"
    { c with iconResult := some r, uploads := c.uploads ++ [r.public_id] }

theorem runPipeline_processIcon {γ : Type} (rest : List (Mw (UpCtx × γ)))
    (req : Request) (c : UpCtx) (g : γ) :
    runPipeline (processIconUploadMw :: rest) req (c, g) =
      runPipeline rest req (upCtxAfterIcon req c, g) := by
  cases hf : req.file <;>
    simp [runPipeline, processIconUploadMw, upCtxAfterIcon, hf]

@[simp]
theorem upCtxAfterImage_errors (req : Request) (c : UpCtx) :
    (upCtxAfterImage req c).errors = c.errors := by
  cases hf : req.file <;> simp [upCtxAfterImage, hf]

@[simp]
theorem upCtxAfterIcon_errors (req : Request) (c : UpCtx) :
    (upCtxAfterIcon req c).errors = c.errors := by
  cases hf : req.file <;> simp [upCtxAfterIcon, hf]

/-! ### C1 -/

/-- C1: every POST, PUT and DELETE route of the projects, experiences
(both routers), skills, certifications, socials and users routers places
`protect` first in its middleware chain, so a request without a valid
authentication token is answered 401 with the server state — in
particular every document collection — untouched, and no later
middleware or route handler runs. -/
theorem unauthenticated_write_rejected
    (req : Request) (h : req.validToken = false) (jp : String → Option JVal)
    (sp : UpCtx × ProjDb) (se : UpCtx × ExpDb) (ss : UpCtx × SkillsDb)
    (sc : UpCtx × CertsDb) (so : UpCtx × SocialsDb) (su : UpCtx × UsersDb) :
    runPipeline (projCreatePipeline jp) req sp = (sp, some unauthorizedResp) ∧
    runPipeline (projUpdatePipeline jp) req sp = (sp, some unauthorizedResp) ∧
    runPipeline projDeletePipeline req sp = (sp, some unauthorizedResp) ∧
    runPipeline projGalleryAddPipeline req sp = (sp, some unauthorizedResp) ∧
    runPipeline projCaptionPipeline req sp = (sp, some unauthorizedResp) ∧
    runPipeline projReorderPipeline req sp = (sp, some unauthorizedResp) ∧
    runPipeline projGalleryDeletePipeline req sp = (sp, some unauthorizedResp) ∧
    runPipeline (expCreatePipeline jp) req se = (se, some unauthorizedResp) ∧
    runPipeline (expUpdatePipeline jp) req se = (se, some unauthorizedResp) ∧
    runPipeline expDeletePipeline req se = (se, some unauthorizedResp) ∧
    runPipeline (expLegacyCreatePipeline jp) req se = (se, some unauthorizedResp) ∧
    runPipeline (expLegacyUpdatePipeline jp) req se = (se, some unauthorizedResp) ∧
    runPipeline expLegacyDeletePipeline req se = (se, some unauthorizedResp) ∧
    runPipeline skillCreatePipeline req ss = (ss, some unauthorizedResp) ∧
    runPipeline skillUpdatePipeline req ss = (ss, some unauthorizedResp) ∧
    runPipeline skillDeletePipeline req ss = (ss, some unauthorizedResp) ∧
    runPipeline skillOrderPipeline req ss = (ss, some unauthorizedResp) ∧
    runPipeline certCreatePipeline req sc = (sc, some unauthorizedResp) ∧
    runPipeline certUpdatePipeline req sc = (sc, some unauthorizedResp) ∧
    runPipeline certDeletePipeline req sc = (sc, some unauthorizedResp) ∧
    runPipeline socialCreatePipeline req so = (so, some unauthorizedResp) ∧
    runPipeline socialUpdatePipeline req so = (so, some unauthorizedResp) ∧
    runPipeline socialDeletePipeline req so = (so, some unauthorizedResp) ∧
    runPipeline socialOrderPipeline req so = (so, some unauthorizedResp) ∧
    runPipeline userUpdatePipeline req su = (su, some unauthorizedResp) ∧
    runPipeline userAvatarPipeline req su = (su, some unauthorizedResp) ∧
    runPipeline userAvatarDeletePipeline req su = (su, some unauthorizedResp) := by
  refine ⟨?_, ?_, ?_, ?_, ?_, ?_, ?_, ?_, ?_, ?_, ?_, ?_, ?_, ?_, ?_, ?_, ?_,
    ?_, ?_, ?_, ?_, ?_, ?_, ?_, ?_, ?_, ?_⟩ <;>
    exact runPipeline_protect_invalid _ req _ h

/-- A concrete unauthenticated request against the skill-creation route:
the state is unchanged and the response is the 401. -/
theorem unauthenticated_write_rejected_witness :
    runPipeline skillCreatePipeline
      { validToken := false, body := [("name", JVal.str "Lean")] }
      (({} : UpCtx), ({} : SkillsDb)) =
      ((({} : UpCtx), ({} : SkillsDb)), some unauthorizedResp) :=
  (unauthenticated_write_rejected
    { validToken := false, body := [("name", JVal.str "Lean")] } rfl jp0
    ({}, {}) ({}, {}) ({}, {}) ({}, {}) ({}, {}) ({}, {})).2.2.2.2.2.2.2.2.2.2.2.2.2.1

/-! ### C2 -/

/-- C2 counterexample: the claim says a string that parses as JSON
yields "the parsed value stored as the canonical array", but
`simplifyData` returns the parsed value as-is even when it is no array
(`"5"` gives the number 5); and it says legacy object-shaped links are
converted to objects "satisfying the links schema", but a legacy key
outside the schema's `key` enum (here `"myblog"`) yields a link object
the schema rejects. -/
theorem simplifyData_claim_counterexample :
    simplifyData jp0 (JVal.str "5") = JVal.num 5 ∧
    (simplifyData jp0 (JVal.str "5")).isArr = false ∧
    parseLinksField jp0 (JVal.obj [("myblog", JVal.str "https://e.com")]) =
      JVal.arr [mkLegacyLink "myblog" (JVal.str "https://e.com")] ∧
    linkSchemaValid (mkLegacyLink "myblog" (JVal.str "https://e.com")) = false :=
  ⟨rfl, rfl, rfl, by decide⟩

/-- C2 (amended): `simplifyData` returns arrays unchanged; a non-empty
string that parses as JSON yields the parsed value as-is (an array
exactly when the JSON was one); a non-empty string that fails to parse
is split on commas, trimmed, filtered, and each item becomes the object
`{key, name, icon, category, isActive}`; a legacy object-shaped `links`
value is converted entry-wise to `{key, url, title, description, icon,
isActive}` objects, and such an object satisfies the links sub-document
schema exactly when the legacy key is one of the allowed link keys and
the url is a string that is non-empty after trimming. -/
theorem simplifyData_normalizes (jp : String → Option JVal) :
    (∀ xs, simplifyData jp (JVal.arr xs) = JVal.arr xs) ∧
    (∀ s v, jp s = some v → s ≠ "" → simplifyData jp (JVal.str s) = v) ∧
    (∀ s, jp s = none → s ≠ "" →
      simplifyData jp (JVal.str s) =
        JVal.arr ((splitTrimFilter s).map mkSimpleItem)) ∧
    (∀ kvs, parseLinksField jp (JVal.obj kvs) =
      JVal.arr (kvs.map (fun kv => mkLegacyLink kv.1 kv.2))) ∧
    (∀ k u, linkSchemaValid (mkLegacyLink k (JVal.str u)) =
      (allowedLinkKeys.contains k && u.jsTrim ≠ "")) := by
  refine ⟨?_, ?_, ?_, ?_, ?_⟩
  · intro xs
    simp [simplifyData, JVal.falsy]
  · intro s v hjp hs
    simp [simplifyData, JVal.falsy, hs, hjp]
  · intro s hjp hs
    simp [simplifyData, JVal.falsy, hs, hjp]
  · intro kvs
    simp [parseLinksField, JVal.falsy, convertLegacyLinks]
  · intro k u
    by_cases hk : k ∈ allowedLinkKeys
    · simp only [allowedLinkKeys, List.mem_cons, List.not_mem_nil, or_false] at hk
      rcases hk with rfl | rfl | rfl | rfl | rfl | rfl | rfl | rfl | rfl | rfl <;>
        simp [linkSchemaValid, mkLegacyLink, bget, allowedLinkKeys, capitalize] <;>
        by_cases hu : u.jsTrim = "" <;> simp [hu] <;> decide
    · simp [linkSchemaValid, mkLegacyLink, bget, hk]

/-- Concrete instances of the amended C2 statement. -/
theorem simplifyData_normalizes_witness :
    simplifyData jp0 (JVal.arr [JVal.str "a"]) = JVal.arr [JVal.str "a"] ∧
    simplifyData jp0 (JVal.str "[]") = JVal.arr [] ∧
    simplifyData jp0 (JVal.str "a, b") =
      JVal.arr ((splitTrimFilter "a, b").map mkSimpleItem) ∧
    parseLinksField jp0 (JVal.obj [("github", JVal.str "https://g.io")]) =
      JVal.arr [mkLegacyLink "github" (JVal.str "https://g.io")] ∧
    linkSchemaValid (mkLegacyLink "github" (JVal.str "https://g.io")) =
      (allowedLinkKeys.contains "github" && "https://g.io".jsTrim ≠ "") := by
  have h := simplifyData_normalizes jp0
  exact ⟨h.1 [JVal.str "a"],
         h.2.1 "[]" (JVal.arr []) rfl (by decide),
         h.2.2.1 "a, b" rfl (by decide),
         h.2.2.2.1 [("github", JVal.str "https://g.io")],
         h.2.2.2.2 "github" "https://g.io"⟩

/-! ### C3 -/

/-- An authenticated request with an attached file whose body fails
validation (missing/empty required fields). -/
def reqUpIn : Request :=
  { validToken := true,
    body := [("title", JVal.str ""), ("company", JVal.str "")],
    file := some "logo.png" }

/-- C3 counterexample: on `POST /api/certifications` this request fails
body validation (the response is the 400), yet the file was uploaded to
the media store before the validation outcome was consulted — the upload
record is non-empty.  So validation does not complete before the upload
begins. -/
theorem validation_before_upload_counterexample :
    ((runPipeline certCreatePipeline reqUpIn
        (({} : UpCtx), ({} : CertsDb))).2).map (fun r => r.status) = some 400 ∧
    ((runPipeline certCreatePipeline reqUpIn
        (({} : UpCtx), ({} : CertsDb))).1).1.uploads = ["portfolio/logo.png"] ∧
    ((runPipeline certCreatePipeline reqUpIn
        (({} : UpCtx), ({} : CertsDb))).1).2.certs = [] := by
  refine ⟨by decide, by decide, by decide⟩

/-- C3 (amended): on the routes that chain an upload middleware before
their validators (certification create and update, project update,
experience create and update), the file upload to the media store runs
before body validation is checked: an authenticated request with a file
whose body fails validation still performs the upload, and only then is
answered 400 with the document collection unchanged. -/
theorem upload_precedes_validation
    (req : Request) (f : String) (c : UpCtx)
    (gc : CertsDb) (gp : ProjDb) (ge : ExpDb) (jp : String → Option JVal)
    (htok : req.validToken = true) (hf : req.file = some f) (hc : c.errors = [])
    (hinvC : certCreateValidators req ≠ [])
    (hinvCU : certUpdateValidators req ≠ [])
    (hinvP : projUpdateValidators jp req ≠ [])
    (hinvE : expCreateValidators req ≠ [])
    (hinvEU : expUpdateValidators req ≠ []) :
    runPipeline certCreatePipeline req (c, gc) =
      (({ c with
          cloudinaryResult := some (uploadToCloudinary f "portfolio")
          uploads := c.uploads ++ [(uploadToCloudinary f "portfolio").public_id]
          errors := certCreateValidators req }, gc),
       some { status := 400, success := false, errors := certCreateValidators req }) ∧
    runPipeline certUpdatePipeline req (c, gc) =
      (({ c with
          cloudinaryResult := some (uploadToCloudinary f "portfolio")
          uploads := c.uploads ++ [(uploadToCloudinary f "portfolio").public_id]
          errors := certUpdateValidators req }, gc),
       some { status := 400, success := false, errors := certUpdateValidators req }) ∧
    runPipeline (projUpdatePipeline jp) req (c, gp) =
      (({ c with
          cloudinaryResult := some (uploadToCloudinary f "portfolio")
          uploads := c.uploads ++ [(uploadToCloudinary f "portfolio").public_id]
          errors := projUpdateValidators jp req }, gp),
       some { status := 400, success := false, errors := projUpdateValidators jp req }) ∧
    runPipeline (expCreatePipeline jp) req (c, ge) =
      (({ c with
          iconResult := some (uploadToCloudinary f "portfolio/icons")
          uploads := c.uploads ++ [(uploadToCloudinary f "portfolio/icons").public_id]
          errors := expCreateValidators req }, ge),
       some { status := 400, success := false, errors := expCreateValidators req }) ∧
    runPipeline (expUpdatePipeline jp) req (c, ge) =
      (({ c with
          iconResult := some (uploadToCloudinary f "portfolio/icons")
          uploads := c.uploads ++ [(uploadToCloudinary f "portfolio/icons").public_id]
          errors := expUpdateValidators req }, ge),
       some { status := 400, success := false, errors := expUpdateValidators req }) := by
  refine ⟨?_, ?_, ?_, ?_, ?_⟩
  · simp only [certCreatePipeline]
    rw [runPipeline_protect_valid _ _ _ htok, runPipeline_uploadLogo,
      runPipeline_processImage, runPipeline_validate]
    simp [runPipeline, certCreateHandler, upCtxAfterImage, hf, hc, hinvC]
  · simp only [certUpdatePipeline]
    rw [runPipeline_protect_valid _ _ _ htok, runPipeline_uploadLogo,
      runPipeline_processImage, runPipeline_validate]
    simp [runPipeline, certUpdateHandler, upCtxAfterImage, hf, hc, hinvCU]
  · simp only [projUpdatePipeline]
    rw [runPipeline_protect_valid _ _ _ htok, runPipeline_uploadImage,
      runPipeline_processImage, runPipeline_validate]
    simp [runPipeline, projUpdateHandler, upCtxAfterImage, hf, hc, hinvP]
  · simp only [expCreatePipeline]
    rw [runPipeline_protect_valid _ _ _ htok, runPipeline_uploadIcon,
      runPipeline_processIcon, runPipeline_validate]
    simp [runPipeline, expCreateHandler, upCtxAfterIcon, hf, hc, hinvE]
  · simp only [expUpdatePipeline]
    rw [runPipeline_protect_valid _ _ _ htok, runPipeline_uploadIcon,
      runPipeline_processIcon, runPipeline_validate]
    simp [runPipeline, expUpdateHandler, upCtxAfterIcon, hf, hc, hinvEU]

/-- The amended C3 statement at the concrete request `reqUpIn`. -/
theorem upload_precedes_validation_witness :
    runPipeline certCreatePipeline reqUpIn (({} : UpCtx), ({} : CertsDb)) =
      (({ cloudinaryResult := some (uploadToCloudinary "logo.png" "portfolio")
          uploads := ["portfolio/logo.png"]
          errors := certCreateValidators reqUpIn }, ({} : CertsDb)),
       some { status := 400, success := false, errors := certCreateValidators reqUpIn }) :=
  (upload_precedes_validation reqUpIn "logo.png" {} {} {} {} jp0 rfl rfl rfl
    (by decide) (by decide) (by decide) (by decide) (by decide)).1

/-! ### C4 -/

/-- C5: PUT updates have partial-field semantics.  For the skill update
route, a validated request updates exactly the documents with the given
id by `applySkillUpdate … (mkSkillUpdate body)`; and for both the skill
and the project `$set` documents (the spread of `req.body`), every field
absent from the body — including the project's `slug`, `gallery` and
`cover` — keeps its stored value, while a present field is set to its
normalized value. -/
theorem put_partial_field_semantics
    (req : Request) (c : UpCtx) (g : SkillsDb) (i : Nat) (old : SkillDoc)
    (jp : String → Option JVal)
    (htok : req.validToken = true) (hc : c.errors = [])
    (hval : skillUpdateValidators req = [])
    (hid : parseId (pget req "id") = some i)
    (hfind : g.skills.find? (fun d => d.id = i) = some old)
    (hupd : skillUpdateValid (mkSkillUpdate req.body) = true) :
    runPipeline skillUpdatePipeline req (c, g) =
      ((c, { g with skills := g.skills.map (fun d =>
              if d.id = i then applySkillUpdate d (mkSkillUpdate req.body) else d) }),
       some { status := 200, success := true }) ∧
    (∀ (d : SkillDoc) (b : Body),
      (bget b "name" = .undef → (applySkillUpdate d (mkSkillUpdate b)).name = d.name) ∧
      (bget b "name" ≠ .undef →
        (applySkillUpdate d (mkSkillUpdate b)).name = (bget b "name").toStr.jsTrim) ∧
      (bget b "category" = .undef →
        (applySkillUpdate d (mkSkillUpdate b)).category = d.category) ∧
      (bget b "category" ≠ .undef →
        (applySkillUpdate d (mkSkillUpdate b)).category = (bget b "category").toStr) ∧
      (bget b "level" = .undef → (applySkillUpdate d (mkSkillUpdate b)).level = d.level) ∧
      (bget b "level" ≠ .undef →
        (applySkillUpdate d (mkSkillUpdate b)).level = parseIntJ (bget b "level")) ∧
      (bget b "icon" = .undef → (applySkillUpdate d (mkSkillUpdate b)).icon = d.icon) ∧
      (bget b "color" = .undef → (applySkillUpdate d (mkSkillUpdate b)).color = d.color) ∧
      (bget b "description" = .undef →
        (applySkillUpdate d (mkSkillUpdate b)).description = d.description) ∧
      (bget b "isPublished" = .undef →
        (applySkillUpdate d (mkSkillUpdate b)).isPublished = d.isPublished) ∧
      (bget b "order" = .undef → (applySkillUpdate d (mkSkillUpdate b)).order = d.order)) ∧
    (∀ (d : ProjectDoc) (b : Body),
      (bget b "slug" = .undef →
        (applyProjUpdate d (mkProjUpdate jp b none)).slug = d.slug) ∧
      (bget b "gallery" = .undef →
        (applyProjUpdate d (mkProjUpdate jp b none)).gallery = d.gallery) ∧
      (bget b "title" = .undef →
        (applyProjUpdate d (mkProjUpdate jp b none)).title = d.title) ∧
      (bget b "title" ≠ .undef →
        (applyProjUpdate d (mkProjUpdate jp b none)).title = (bget b "title").toStr.jsTrim) ∧
      (bget b "description" = .undef →
        (applyProjUpdate d (mkProjUpdate jp b none)).description = d.description) ∧
      (bget b "techStack" = .undef →
        (applyProjUpdate d (mkProjUpdate jp b none)).techStack = d.techStack) ∧
      (bget b "features" = .undef →
        (applyProjUpdate d (mkProjUpdate jp b none)).features = d.features) ∧
      (bget b "links" = .undef →
        (applyProjUpdate d (mkProjUpdate jp b none)).links = d.links) ∧
      (bget b "stats" = .undef →
        (applyProjUpdate d (mkProjUpdate jp b none)).stats = d.stats) ∧
      (bget b "caseStudy" = .undef →
        (applyProjUpdate d (mkProjUpdate jp b none)).caseStudy = d.caseStudy) ∧
      (bget b "role" = .undef →
        (applyProjUpdate d (mkProjUpdate jp b none)).role = d.role) ∧
      (bget b "year" = .undef →
        (applyProjUpdate d (mkProjUpdate jp b none)).year = d.year) ∧
      (bget b "year" ≠ .undef →
        (applyProjUpdate d (mkProjUpdate jp b none)).year = parseIntJ (bget b "year")) ∧
      (bget b "type" = .undef →
        (applyProjUpdate d (mkProjUpdate jp b none)).ptype = d.ptype) ∧
      (bget b "isFeatured" = .undef →
        (applyProjUpdate d (mkProjUpdate jp b none)).isFeatured = d.isFeatured) ∧
      (bget b "isFeatured" ≠ .undef →
        (applyProjUpdate d (mkProjUpdate jp b none)).isFeatured =
          (bget b "isFeatured" == JVal.str "true")) ∧
      (bget b "isPublished" = .undef →
        (applyProjUpdate d (mkProjUpdate jp b none)).isPublished = d.isPublished) ∧
      (bget b "cover" = .undef →
        (applyProjUpdate d (mkProjUpdate jp b none)).cover = d.cover)) := by
  refine ⟨?_, ?_, ?_⟩
  · rcases c with ⟨cr, ir, crs, up, er⟩
    simp only at hc
    subst hc
    simp only [skillUpdatePipeline]
    rw [runPipeline_protect_valid _ _ _ htok, runPipeline_validate]
    simp [runPipeline, skillUpdateHandler, hval, hid, hfind,
      skillModelUpdate, hupd]
  · intro d b
    refine ⟨?_, ?_, ?_, ?_, ?_, ?_, ?_, ?_, ?_, ?_, ?_⟩ <;> intro h
    · simp [applySkillUpdate, mkSkillUpdate, h]
    · cases hv : bget b "name" <;> simp_all [applySkillUpdate, mkSkillUpdate]
    · simp [applySkillUpdate, mkSkillUpdate, h]
    · cases hv : bget b "category" <;> simp_all [applySkillUpdate, mkSkillUpdate]
    · simp [applySkillUpdate, mkSkillUpdate, h]
    · cases hv : bget b "level" <;> simp_all [applySkillUpdate, mkSkillUpdate]
    · simp [applySkillUpdate, mkSkillUpdate, h]
    · simp [applySkillUpdate, mkSkillUpdate, h]
    · simp [applySkillUpdate, mkSkillUpdate, h]
    · simp [applySkillUpdate, mkSkillUpdate, h]
    · simp [applySkillUpdate, mkSkillUpdate, h]
  · intro d b
    refine ⟨?_, ?_, ?_, ?_, ?_, ?_, ?_, ?_, ?_, ?_, ?_, ?_, ?_, ?_, ?_, ?_, ?_, ?_⟩ <;>
      intro h
    · simp [applyProjUpdate, mkProjUpdate, h]
    · simp [applyProjUpdate, mkProjUpdate, h]
    · simp [applyProjUpdate, mkProjUpdate, h]
    · cases hv : bget b "title" <;> simp_all [applyProjUpdate, mkProjUpdate]
    · simp [applyProjUpdate, mkProjUpdate, h]
    · simp [applyProjUpdate, mkProjUpdate, h]
    · simp [applyProjUpdate, mkProjUpdate, h]
    · simp [applyProjUpdate, mkProjUpdate, h]
    · simp [applyProjUpdate, mkProjUpdate, h]
    · simp [applyProjUpdate, mkProjUpdate, h]
    · simp [applyProjUpdate, mkProjUpdate, h]
    · simp [applyProjUpdate, mkProjUpdate, h]
    · cases hv : bget b "year" <;> simp_all [applyProjUpdate, mkProjUpdate]
    · simp [applyProjUpdate, mkProjUpdate, h]
    · simp [applyProjUpdate, mkProjUpdate, h]
    · cases hv : bget b "isFeatured" <;> simp_all [applyProjUpdate, mkProjUpdate]
    · simp [applyProjUpdate, mkProjUpdate, h]
    · simp [applyProjUpdate, mkProjUpdate, h]

/-- C5 at a concrete state: updating only `level` of a stored skill
keeps every other field and changes `level`. -/
theorem put_partial_field_semantics_witness :
    runPipeline skillUpdatePipeline
      { validToken := true, body := [("level", JVal.str "80")],
        params := [("id", "7")] }
      (({} : UpCtx),
       ({ skills := [{ id := 7, name := "Dart", category := "Languages",
                       level := 60 }] } : SkillsDb)) =
      ((({} : UpCtx),
        ({ skills := [applySkillUpdate
            { id := 7, name := "Dart", category := "Languages", level := 60 }
            (mkSkillUpdate [("level", JVal.str "80")])] } : SkillsDb)),
       some { status := 200, success := true }) :=
  (put_partial_field_semantics
    { validToken := true, body := [("level", JVal.str "80")], params := [("id", "7")] }
    {} { skills := [{ id := 7, name := "Dart", category := "Languages", level := 60 }] }
    7 { id := 7, name := "Dart", category := "Languages", level := 60 } jp0
    rfl rfl (by decide) (by decide) (by decide) (by decide)).1

/-! ### C6 -/

/-- The cover public id the delete handler attempts to destroy. -/
def coverIds (p : ProjectDoc) : List String :=
  match p.cover with
  | some cov => if cov.public_id ≠ "" then [cov.public_id] else []
  | none => []

/-- The gallery public ids the delete handler attempts to destroy. -/
def galleryIds (p : ProjectDoc) : List String :=
  (p.gallery.filter (fun im => im.public_id ≠ "")).map (fun im => im.public_id)

theorem projTryDestroy_projects (g : ProjDb) (pid : String) :
    (projTryDestroy g pid).projects = g.projects := by
  unfold projTryDestroy
  split <;> rfl

theorem projTryDestroy_attempts (g : ProjDb) (pid : String) :
    (projTryDestroy g pid).deleteAttempts = g.deleteAttempts ++ [pid] := by
  unfold projTryDestroy
  split <;> rfl

theorem foldDestroy_projects (imgs : List GalleryImage) (g : ProjDb) :
    (imgs.foldl (fun acc img =>
      if img.public_id = "" then acc else projTryDestroy acc img.public_id) g).projects
      = g.projects := by
  induction imgs generalizing g with
  | nil => rfl
  | cons im rest ih =>
    by_cases h : im.public_id = ""
    · simp [List.foldl_cons, h, ih]
    · simp [List.foldl_cons, h, ih, projTryDestroy_projects]

theorem foldDestroy_attempts (imgs : List GalleryImage) (g : ProjDb) :
    (imgs.foldl (fun acc img =>
      if img.public_id = "" then acc else projTryDestroy acc img.public_id) g).deleteAttempts
      = g.deleteAttempts ++
        (imgs.filter (fun im => im.public_id ≠ "")).map (fun im => im.public_id) := by
  induction imgs generalizing g with
  | nil => simp
  | cons im rest ih =>
    by_cases h : im.public_id = ""
    · simp [List.foldl_cons, List.filter_cons, h, ih]
    · simp [List.foldl_cons, List.filter_cons, h, ih, projTryDestroy_attempts]

/-- C6: deleting an existing project attempts to destroy the cover image
and every gallery image with a public id on the media host, and — for
every possible set of failing destroy calls `g.deleteFails`, since each
call is wrapped in its own `try/catch` — the document is removed and the
success response returned regardless. -/
theorem delete_best_effort
    (req : Request) (c : UpCtx) (g : ProjDb) (i : Nat) (proj : ProjectDoc)
    (htok : req.validToken = true)
    (hid : parseId (pget req "id") = some i)
    (hfind : g.projects.find? (fun d => d.id = i) = some proj) :
    ∃ g' : ProjDb,
      runPipeline projDeletePipeline req (c, g) =
        ((c, g'),
         some { status := 200, success := true,
                message := "Project deleted successfully" }) ∧
      g'.projects = g.projects.filter (fun d => d.id ≠ i) ∧
      g'.deleteAttempts = g.deleteAttempts ++ coverIds proj ++ galleryIds proj := by
  simp only [projDeletePipeline]
  rw [runPipeline_protect_valid _ _ _ htok]
  simp only [runPipeline, projDeleteHandler, hid, hfind]
  refine ⟨_, rfl, ?_, ?_⟩
  · rcases hcov : proj.cover with _ | cov
    · simp [hcov, foldDestroy_projects]
    · by_cases hpid : cov.public_id = "" <;>
        simp [hcov, hpid, foldDestroy_projects, projTryDestroy_projects]
  · rcases hcov : proj.cover with _ | cov
    · simp [hcov, foldDestroy_attempts, coverIds, galleryIds]
    · by_cases hpid : cov.public_id = "" <;>
        simp [hcov, hpid, foldDestroy_attempts, projTryDestroy_attempts,
          coverIds, galleryIds]

/-- C6 at a concrete project with a cover and two gallery images, where
the cover destroy call fails: the document is still deleted and all
three destroys were attempted. -/
theorem delete_best_effort_witness :
    ∃ g' : ProjDb,
      runPipeline projDeletePipeline
        { validToken := true, body := [], params := [("id", "3")] }
        (({} : UpCtx),
         ({ projects := [{ id := 3, title := "P",
                           cover := some { url := "u", public_id := "cov" },
                           gallery := [{ gid := 0, url := "g1", public_id := "p1" },
                                       { gid := 1, url := "g2", public_id := "p2" }] }]
            deleteFails := fun pid => pid == "cov" } : ProjDb)) =
        ((({} : UpCtx), g'),
         some { status := 200, success := true,
                message := "Project deleted successfully" }) ∧
      g'.projects =
        ([{ id := 3, title := "P",
            cover := some { url := "u", public_id := "cov" },
            gallery := [{ gid := 0, url := "g1", public_id := "p1" },
                        { gid := 1, url := "g2", public_id := "p2" }] }] :
          List ProjectDoc).filter (fun d => d.id ≠ 3) ∧
      g'.deleteAttempts = [] ++
        coverIds { id := 3, title := "P",
                   cover := some { url := "u", public_id := "cov" },
                   gallery := [{ gid := 0, url := "g1", public_id := "p1" },
                               { gid := 1, url := "g2", public_id := "p2" }] } ++
        galleryIds { id := 3, title := "P",
                     cover := some { url := "u", public_id := "cov" },
                     gallery := [{ gid := 0, url := "g1", public_id := "p1" },
                                 { gid := 1, url := "g2", public_id := "p2" }] } :=
  delete_best_effort
    { validToken := true, body := [], params := [("id", "3")] } {}
    { projects := [{ id := 3, title := "P",
                     cover := some { url := "u", public_id := "cov" },
                     gallery := [{ gid := 0, url := "g1", public_id := "p1" },
                                 { gid := 1, url := "g2", public_id := "p2" }] }]
      deleteFails := fun pid => pid == "cov" }
    3 { id := 3, title := "P",
        cover := some { url := "u", public_id := "cov" },
        gallery := [{ gid := 0, url := "g1", public_id := "p1" },
                    { gid := 1, url := "g2", public_id := "p2" }] }
    rfl (by decide) rfl

/-! ### C7 -/

theorem skillSchemaValid_applyUpdate (d : SkillDoc) (u : SkillUpdate)
    (hd : skillSchemaValid d = true) (hu : skillUpdateValid u = true) :
    skillSchemaValid (applySkillUpdate d u) = true := by
  cases hn : u.name <;> cases hc : u.category <;> cases hl : u.level <;>
    cases hi : u.icon <;> cases hde : u.description <;>
    simp_all [skillSchemaValid, skillUpdateValid, applySkillUpdate]

theorem socialSchemaValid_applyUpdate (d : SocialDoc) (u : SocialUpdate)
    (hd : socialSchemaValid d = true) (hu : socialUpdateValid u = true) :
    socialSchemaValid (applySocialUpdate d u) = true := by
  cases hp : u.platform <;> cases hx : u.url <;> cases hi : u.icon <;>
    simp_all [socialSchemaValid, socialUpdateValid, applySocialUpdate]

/-- C7: the skill and social schema layers enforce the field
constraints.  A valid stored skill has a name of at most 50 characters,
a category from the enumeration, and a level between 1 and 100; a valid
stored social has platform, url and icon present within their length
limits.  `create` stores exactly the documents that pass the schema
validators, rejecting the rest, and a `findByIdAndUpdate` with
`runValidators` preserves validity of every stored document and rejects
updates that violate the constraints. -/
theorem schema_constraints_enforced :
    (∀ d : SkillDoc, skillSchemaValid d = true →
      d.name.length ≤ 50 ∧ d.category ∈ skillCategories ∧
      1 ≤ d.level ∧ d.level ≤ 100) ∧
    (∀ d : SocialDoc, socialSchemaValid d = true →
      d.platform ≠ "" ∧ d.platform.length ≤ 50 ∧ d.url ≠ "" ∧
      d.url.length ≤ 500 ∧ d.icon ≠ "" ∧ d.icon.length ≤ 100) ∧
    (∀ (coll : List SkillDoc) (d : SkillDoc) coll' doc,
      skillModelCreate coll d = .ok (coll', doc) →
      coll' = coll ++ [doc] ∧ skillSchemaValid doc = true) ∧
    (∀ (coll : List SkillDoc) (d : SkillDoc),
      skillSchemaValid (skillApplySetters d) = false →
      skillModelCreate coll d = .error "ValidationError") ∧
    (∀ (coll : List SkillDoc) (i : Nat) (u : SkillUpdate) coll',
      skillModelUpdate coll i u = .ok coll' →
      (∀ doc ∈ coll, skillSchemaValid doc = true) →
      ∀ doc ∈ coll', skillSchemaValid doc = true) ∧
    (∀ (coll : List SkillDoc) (i : Nat) (u : SkillUpdate),
      skillUpdateValid u = false →
      skillModelUpdate coll i u = .error "ValidationError") ∧
    (∀ (coll : List SocialDoc) (d : SocialDoc) coll' doc,
      socialModelCreate coll d = .ok (coll', doc) →
      coll' = coll ++ [doc] ∧ socialSchemaValid doc = true) ∧
    (∀ (coll : List SocialDoc) (d : SocialDoc),
      socialSchemaValid (socialApplySetters d) = false →
      socialModelCreate coll d = .error "ValidationError") ∧
    (∀ (coll : List SocialDoc) (i : Nat) (u : SocialUpdate) coll',
      socialModelUpdate coll i u = .ok coll' →
      (∀ doc ∈ coll, socialSchemaValid doc = true) →
      ∀ doc ∈ coll', socialSchemaValid doc = true) ∧
    (∀ (coll : List SocialDoc) (i : Nat) (u : SocialUpdate),
      socialUpdateValid u = false →
      socialModelUpdate coll i u = .error "ValidationError") := by
  refine ⟨?_, ?_, ?_, ?_, ?_, ?_, ?_, ?_, ?_, ?_⟩
  · intro d h
    simp only [skillSchemaValid, Bool.and_eq_true, decide_eq_true_eq] at h
    exact ⟨h.1.1.1.1.1.2, List.elem_iff.mp h.1.1.1.1.2, h.1.1.1.2, h.1.1.2⟩
  · intro d h
    simp only [socialSchemaValid, Bool.and_eq_true, decide_eq_true_eq] at h
    tauto
  · intro coll d coll' doc h
    by_cases hv : skillSchemaValid (skillApplySetters d) = true
    · simp only [skillModelCreate, hv, if_true] at h
      obtain ⟨h1, h2⟩ := Prod.mk.injEq _ _ _ _ ▸ (Except.ok.injEq _ _ ▸ h)
      exact ⟨h1.symm ▸ h2.symm ▸ rfl, h2 ▸ hv⟩
    · simp [skillModelCreate, hv] at h
  · intro coll d h
    simp [skillModelCreate, h]
  · intro coll i u coll' h hall doc hdoc
    by_cases hv : skillUpdateValid u = true
    · simp only [skillModelUpdate, hv, if_true, Except.ok.injEq] at h
      subst h
      obtain ⟨orig, horig, heq⟩ := List.mem_map.mp hdoc
      by_cases hi : orig.id = i
      · simp only [hi, if_true] at heq
        exact heq ▸ skillSchemaValid_applyUpdate orig u (hall orig horig) hv
      · simp only [hi, if_false] at heq
        exact heq ▸ hall orig horig
    · simp [skillModelUpdate, hv] at h
  · intro coll i u h
    simp [skillModelUpdate, h]
  · intro coll d coll' doc h
    by_cases hv : socialSchemaValid (socialApplySetters d) = true
    · simp only [socialModelCreate, hv, if_true] at h
      obtain ⟨h1, h2⟩ := Prod.mk.injEq _ _ _ _ ▸ (Except.ok.injEq _ _ ▸ h)
      exact ⟨h1.symm ▸ h2.symm ▸ rfl, h2 ▸ hv⟩
    · simp [socialModelCreate, hv] at h
  · intro coll d h
    simp [socialModelCreate, h]
  · intro coll i u coll' h hall doc hdoc
    by_cases hv : socialUpdateValid u = true
    · simp only [socialModelUpdate, hv, if_true, Except.ok.injEq] at h
      subst h
      obtain ⟨orig, horig, heq⟩ := List.mem_map.mp hdoc
      by_cases hi : orig.id = i
      · simp only [hi, if_true] at heq
        exact heq ▸ socialSchemaValid_applyUpdate orig u (hall orig horig) hv
      · simp only [hi, if_false] at heq
        exact heq ▸ hall orig horig
    · simp [socialModelUpdate, hv] at h
  · intro coll i u h
    simp [socialModelUpdate, h]

/-- A concrete skill document passing the schema. -/
def dSkill0 : SkillDoc := { name := "Dart", category := "Languages", level := 70 }

/-- C7 at `dSkill0`: creating it stores it (appended) and the stored
document passes the schema check. -/
theorem schema_constraints_enforced_witness :
    [skillApplySetters dSkill0] = ([] : List SkillDoc) ++ [skillApplySetters dSkill0] ∧
    skillSchemaValid (skillApplySetters dSkill0) = true :=
  schema_constraints_enforced.2.2.1 [] dSkill0 [skillApplySetters dSkill0]
    (skillApplySetters dSkill0) rfl

/-! ### C8 -/

theorem mem_insertionSort {α : Type} (r : α → α → Prop) [DecidableRel r]
    {a : α} {l : List α} : a ∈ List.insertionSort r l ↔ a ∈ l :=
  (List.perm_insertionSort r l).mem_iff

theorem groupByCategory_fold_pred (P : SkillDoc → Prop) :
    ∀ (skills : List SkillDoc) (acc : List (String × List SkillDoc)),
    (∀ p ∈ acc, ∀ d ∈ p.2, P d) → (∀ d ∈ skills, P d) →
    ∀ p ∈ skills.foldl (fun acc sk =>
        if acc.any (fun p => p.1 = sk.category) then
          acc.map (fun p => if p.1 = sk.category then (p.1, p.2 ++ [sk]) else p)
        else acc ++ [(sk.category, [sk])]) acc,
      ∀ d ∈ p.2, P d := by
  intro skills
  induction skills with
  | nil => intro acc hacc _ p hp d hd; exact hacc p hp d hd
  | cons sk rest ih =>
    intro acc hacc hsk
    simp only [List.foldl_cons]
    apply ih
    · by_cases hb : acc.any (fun p => p.1 = sk.category)
      · simp only [hb, if_true]
        intro p hp d hd
        obtain ⟨q, hq, rfl⟩ := List.mem_map.mp hp
        by_cases hqc : q.1 = sk.category
        · simp only [hqc, if_true] at hd
          rcases List.mem_append.mp hd with h | h
          · exact hacc q hq d h
          · rw [List.mem_singleton.mp h]
            exact hsk sk (List.mem_cons_self sk rest)
        · simp only [hqc, if_false] at hd
          exact hacc q hq d hd
      · simp only [hb, if_false]
        intro p hp d hd
        rcases List.mem_append.mp hp with h | h
        · exact hacc p h d hd
        · rw [List.mem_singleton.mp h] at hd
          rw [List.mem_singleton.mp hd]
          exact hsk sk (List.mem_cons_self sk rest)
    · intro d hd
      exact hsk d (List.mem_cons_of_mem _ hd)

theorem groupByCategory_mem {skills : List SkillDoc} {cat : String}
    {ds : List SkillDoc} {d : SkillDoc} (P : SkillDoc → Prop)
    (hsk : ∀ x ∈ skills, P x)
    (hp : (cat, ds) ∈ groupByCategory skills) (hd : d ∈ ds) : P d := by
  have := groupByCategory_fold_pred P skills [] (by intro p h; cases h) hsk
  exact this (cat, ds) hp d hd

/-- C8: every public GET filters on the publication flag.  Every project
returned by the list, featured, by-id and by-slug reads is published (a
lookup that finds nothing answers 404); the same holds for experiences,
skills (also through the grouped and per-category reads) and
certifications; and the socials reads return only active links. -/
theorem public_reads_only_published :
    (∀ g q d, d ∈ (getProjectsHandler g q).data → d.isPublished = true) ∧
    (∀ g d, d ∈ getFeaturedHandler g → d.isFeatured = true ∧ d.isPublished = true) ∧
    (∀ g i d, (getProjectByIdHandler g i).2 = some d → d.isPublished = true) ∧
    (∀ g i, (getProjectByIdHandler g i).2 = none →
      (getProjectByIdHandler g i).1.status = 404) ∧
    (∀ g s d, (getProjectBySlugHandler g s).2 = some d → d.isPublished = true) ∧
    (∀ g s, (getProjectBySlugHandler g s).2 = none →
      (getProjectBySlugHandler g s).1.status = 404) ∧
    (∀ g d, d ∈ getExperiencesHandler g → d.isPublished = true) ∧
    (∀ g i d, (getExperienceByIdHandler g i).2 = some d → d.isPublished = true) ∧
    (∀ g i, (getExperienceByIdHandler g i).2 = none →
      (getExperienceByIdHandler g i).1.status = 404) ∧
    (∀ g cat ds d, (cat, ds) ∈ getSkillsHandler g → d ∈ ds → d.isPublished = true) ∧
    (∀ g cat d, d ∈ getSkillsByCategoryHandler g cat → d.isPublished = true) ∧
    (∀ g i d, (getSkillByIdHandler g i).2 = some d → d.isPublished = true) ∧
    (∀ g i, (getSkillByIdHandler g i).2 = none →
      (getSkillByIdHandler g i).1.status = 404) ∧
    (∀ g d, d ∈ getCertsHandler g → d.isPublished = true) ∧
    (∀ g i d, (getCertByIdHandler g i).2 = some d → d.isPublished = true) ∧
    (∀ g i, (getCertByIdHandler g i).2 = none →
      (getCertByIdHandler g i).1.status = 404) ∧
    (∀ g d, d ∈ getSocialsHandler g → d.isActive = true) ∧
    (∀ g i d, (getSocialByIdHandler g i).2 = some d → d.isActive = true) ∧
    (∀ g i, (getSocialByIdHandler g i).2 = none →
      (getSocialByIdHandler g i).1.status = 404) := by
  refine ⟨?_, ?_, ?_, ?_, ?_, ?_, ?_, ?_, ?_, ?_, ?_, ?_, ?_, ?_, ?_, ?_, ?_, ?_, ?_⟩
  · intro g q d hd
    have h1 := List.mem_of_mem_take hd
    have h2 := List.mem_of_mem_drop h1
    have h3 := (mem_insertionSort _).mp h2
    have h4 := (List.mem_filter.mp h3).2
    simp only [projListQueryPred, Bool.and_eq_true] at h4
    exact h4.1.1.1.1.1
  · intro g d hd
    have h1 := List.mem_of_mem_take hd
    have h2 := (mem_insertionSort _).mp h1
    have h3 := (List.mem_filter.mp h2).2
    simp only [Bool.and_eq_true] at h3
    exact h3
  · intro g i d h
    simp only [getProjectByIdHandler] at h
    cases hf : g.projects.find? (fun d => d.id = i ∧ d.isPublished) with
    | none =>
      simp only [hf] at h
      exact Option.noConfusion h
    | some a =>
      simp only [hf, Option.some.injEq] at h
      subst h
      have hp := List.find?_some hf
      simp only [decide_eq_true_eq] at hp
      exact hp.2
  · intro g i h
    simp only [getProjectByIdHandler] at h ⊢
    cases hf : g.projects.find? (fun d => d.id = i ∧ d.isPublished) with
    | none => simp [hf]
    | some a =>
      simp only [hf] at h
      exact Option.noConfusion h
  · intro g s d h
    simp only [getProjectBySlugHandler] at h
    cases hf : g.projects.find? (fun d => d.slug = s ∧ d.isPublished) with
    | none =>
      simp only [hf] at h
      exact Option.noConfusion h
    | some a =>
      simp only [hf, Option.some.injEq] at h
      subst h
      have hp := List.find?_some hf
      simp only [decide_eq_true_eq] at hp
      exact hp.2
  · intro g s h
    simp only [getProjectBySlugHandler] at h ⊢
    cases hf : g.projects.find? (fun d => d.slug = s ∧ d.isPublished) with
    | none => simp [hf]
    | some a =>
      simp only [hf] at h
      exact Option.noConfusion h
  · intro g d hd
    have h2 := (mem_insertionSort _).mp hd
    exact (List.mem_filter.mp h2).2
  · intro g i d h
    simp only [getExperienceByIdHandler] at h
    cases hf : g.experiences.find? (fun d => d.id = i ∧ d.isPublished) with
    | none =>
      simp only [hf] at h
      exact Option.noConfusion h
    | some a =>
      simp only [hf, Option.some.injEq] at h
      subst h
      have hp := List.find?_some hf
      simp only [decide_eq_true_eq] at hp
      exact hp.2
  · intro g i h
    simp only [getExperienceByIdHandler] at h ⊢
    cases hf : g.experiences.find? (fun d => d.id = i ∧ d.isPublished) with
    | none => simp [hf]
    | some a =>
      simp only [hf] at h
      exact Option.noConfusion h
  · intro g cat ds d hp hd
    refine groupByCategory_mem (fun x => x.isPublished = true) ?_ hp hd
    intro x hx
    exact (List.mem_filter.mp ((mem_insertionSort _).mp hx)).2
  · intro g cat d hd
    have h2 := (mem_insertionSort _).mp hd
    have h3 := (List.mem_filter.mp h2).2
    simp only [Bool.and_eq_true] at h3
    exact h3.2
  · intro g i d h
    simp only [getSkillByIdHandler] at h
    cases hf : g.skills.find? (fun d => d.id = i ∧ d.isPublished) with
    | none =>
      simp only [hf] at h
      exact Option.noConfusion h
    | some a =>
      simp only [hf, Option.some.injEq] at h
      subst h
      have hp := List.find?_some hf
      simp only [decide_eq_true_eq] at hp
      exact hp.2
  · intro g i h
    simp only [getSkillByIdHandler] at h ⊢
    cases hf : g.skills.find? (fun d => d.id = i ∧ d.isPublished) with
    | none => simp [hf]
    | some a =>
      simp only [hf] at h
      exact Option.noConfusion h
  · intro g d hd
    have h2 := (mem_insertionSort _).mp hd
    exact (List.mem_filter.mp h2).2
  · intro g i d h
    simp only [getCertByIdHandler] at h
    cases hf : g.certs.find? (fun d => d.id = i ∧ d.isPublished) with
    | none =>
      simp only [hf] at h
      exact Option.noConfusion h
    | some a =>
      simp only [hf, Option.some.injEq] at h
      subst h
      have hp := List.find?_some hf
      simp only [decide_eq_true_eq] at hp
      exact hp.2
  · intro g i h
    simp only [getCertByIdHandler] at h ⊢
    cases hf : g.certs.find? (fun d => d.id = i ∧ d.isPublished) with
    | none => simp [hf]
    | some a =>
      simp only [hf] at h
      exact Option.noConfusion h
  · intro g d hd
    have h2 := (mem_insertionSort _).mp hd
    exact (List.mem_filter.mp h2).2
  · intro g i d h
    simp only [getSocialByIdHandler] at h
    cases hf : g.socials.find? (fun d => d.id = i ∧ d.isActive) with
    | none =>
      simp only [hf] at h
      exact Option.noConfusion h
    | some a =>
      simp only [hf, Option.some.injEq] at h
      subst h
      have hp := List.find?_some hf
      simp only [decide_eq_true_eq] at hp
      exact hp.2
  · intro g i h
    simp only [getSocialByIdHandler] at h ⊢
    cases hf : g.socials.find? (fun d => d.id = i ∧ d.isActive) with
    | none => simp [hf]
    | some a =>
      simp only [hf] at h
      exact Option.noConfusion h

/-- C8 at a concrete store: an unpublished project is invisible to the
by-id read (404), and the featured read returns only the published,
featured document. -/
theorem public_reads_only_published_witness :
    (getProjectByIdHandler
      ({ projects := [{ id := 1, title := "Hidden", isPublished := false }] } : ProjDb)
      1).1.status = 404 ∧
    (({ id := 2, title := "F", isFeatured := true } : ProjectDoc).isFeatured = true ∧
     ({ id := 2, title := "F", isFeatured := true } : ProjectDoc).isPublished = true) :=
  ⟨public_reads_only_published.2.2.2.1
      { projects := [{ id := 1, title := "Hidden", isPublished := false }] } 1 rfl,
   public_reads_only_published.2.1
      { projects := [{ id := 2, title := "F", isFeatured := true }] }
      { id := 2, title := "F", isFeatured := true }
      (List.mem_singleton.mpr rfl)⟩

/-! ### C9 -/

instance : IsTotal ProjectDoc (fun a b => b.createdAt ≤ a.createdAt) :=
  ⟨fun a b => Nat.le_total b.createdAt a.createdAt⟩

instance : IsTrans ProjectDoc (fun a b => b.createdAt ≤ a.createdAt) :=
  ⟨fun _ _ _ hab hbc => Nat.le_trans hbc hab⟩

/-- C9: `GET /api/projects` returns at most `limit` documents (the
default query is `page = 1`, `limit = 10`): the page is the `limit`-long
slice after skipping `(page - 1) * limit` of the matching documents
sorted by creation time descending, and the pagination metadata reports
`currentPage = page`, `itemsPerPage = limit`, the number of matching
documents as `totalItems`, and `totalPages = ⌈totalItems / limit⌉`;
`GET /api/projects/featured` returns at most 6 documents, all featured
and published. -/
theorem projects_pagination_correct (g : ProjDb) (q : ProjListQuery) :
    (getProjectsHandler g q).data.length ≤ q.limit ∧
    (getProjectsHandler g q).data =
      ((sortByCreatedDesc (g.projects.filter (projListQueryPred q))).drop
        ((q.page - 1) * q.limit)).take q.limit ∧
    List.Pairwise (fun a b : ProjectDoc => b.createdAt ≤ a.createdAt)
      (getProjectsHandler g q).data ∧
    (getProjectsHandler g q).pagination.currentPage = q.page ∧
    (getProjectsHandler g q).pagination.itemsPerPage = q.limit ∧
    (getProjectsHandler g q).pagination.totalItems =
      (g.projects.filter (projListQueryPred q)).length ∧
    (getProjectsHandler g q).pagination.totalPages =
      (getProjectsHandler g q).pagination.totalItems ⌈/⌉ q.limit ∧
    (getFeaturedHandler g).length ≤ 6 ∧
    (∀ d ∈ getFeaturedHandler g, d.isFeatured = true ∧ d.isPublished = true) := by
  refine ⟨?_, rfl, ?_, rfl, rfl, rfl, ?_, ?_, ?_⟩
  · simp only [getProjectsHandler]
    exact List.length_take_le _ _
  · have hs : List.Pairwise (fun a b : ProjectDoc => b.createdAt ≤ a.createdAt)
        (sortByCreatedDesc (g.projects.filter (projListQueryPred q))) :=
      List.sorted_insertionSort _ _
    exact List.Pairwise.sublist ((List.take_sublist _ _).trans (List.drop_sublist _ _)) hs
  · simp only [getProjectsHandler, Nat.ceilDiv_eq_add_pred_div]
  · simp only [getFeaturedHandler]
    exact List.length_take_le _ _
  · intro d hd
    have h2 := (mem_insertionSort _).mp (List.mem_of_mem_take hd)
    have h3 := (List.mem_filter.mp h2).2
    simp only [Bool.and_eq_true] at h3
    exact h3

/-- A concrete two-project store for the C9 witness. -/
def gPag : ProjDb :=
  { projects := [{ id := 0, title := "A", createdAt := 1 },
                 { id := 1, title := "B", createdAt := 2 }] }

/-- A concrete `page = 1, limit = 1` query for the C9 witness. -/
def qPag : ProjListQuery := { page := 1, limit := 1 }

/-- C9 at the concrete store `gPag` and query `qPag`. -/
theorem projects_pagination_correct_witness :
    (getProjectsHandler gPag qPag).data.length ≤ qPag.limit ∧
    (getProjectsHandler gPag qPag).data =
      ((sortByCreatedDesc (gPag.projects.filter (projListQueryPred qPag))).drop
        ((qPag.page - 1) * qPag.limit)).take qPag.limit ∧
    List.Pairwise (fun a b : ProjectDoc => b.createdAt ≤ a.createdAt)
      (getProjectsHandler gPag qPag).data ∧
    (getProjectsHandler gPag qPag).pagination.currentPage = qPag.page ∧
    (getProjectsHandler gPag qPag).pagination.itemsPerPage = qPag.limit ∧
    (getProjectsHandler gPag qPag).pagination.totalItems =
      (gPag.projects.filter (projListQueryPred qPag)).length ∧
    (getProjectsHandler gPag qPag).pagination.totalPages =
      (getProjectsHandler gPag qPag).pagination.totalItems ⌈/⌉ qPag.limit ∧
    (getFeaturedHandler gPag).length ≤ 6 ∧
    (∀ d ∈ getFeaturedHandler gPag, d.isFeatured = true ∧ d.isPublished = true) :=
  projects_pagination_correct gPag qPag

/-! ### C10 -/

end Profile
